import Mathlib

/-!
# Storefront cart: a shallow embedding of `src/UI`

The cart logic of the storefront lives in three places:

* `script.js`  : class `ShoppingCart` (in-memory cart mirrored to `localStorage`),
* `cart.js` / `ui.js` : classes `CartManager` and `UIManager` (the cart page, which
  works directly on the list kept in `localStorage`),
* `products.js` : class `ProductManager` (the product page, `addToCart`, the debounced
  search),
* `api.js` / `config.js` : class `APIService` (requests, error handling, the session).

Numbers: product ids and quantities are integers (`Int`); prices are exact
rationals (`ℚ`), so that sums and the tax are computed in exact arithmetic.
The value stored under the `localStorage` key `'cart'` is modelled by the list it
encodes, `none` standing for an absent key; the section on `JSON.stringify` and
`JSON.parse` shows that reading back what was written yields that list.
Network calls are modelled by their outcome, timers by a clock in milliseconds.
-/

namespace Storefront

/-! ## Data model -/

/-- A catalog product (`initializeProducts` in `script.js`). -/
structure Product where
  id : Int
  title : String
  description : String
  price : ℚ
  image : String
deriving DecidableEq

/-- A cart line item: the product's fields plus a quantity (`{...product, quantity: 1}`). -/
structure LineItem where
  id : Int
  title : String
  description : String
  price : ℚ
  image : String
  quantity : Int
deriving DecidableEq

/-- The object literal `{ ...product, quantity: q }`. -/
def Product.toLineItem (product : Product) (q : Int) : LineItem :=
  { id := product.id, title := product.title, description := product.description,
    price := product.price, image := product.image, quantity := q }

/-- The expression `JSON.parse(localStorage.getItem('cart')) || []`
(`script.js` line 9, `ui.js` line 37): an absent key decodes to the empty list. -/
def parseCart (stored : Option (List LineItem)) : List LineItem :=
  match stored with
  | some cart => cart
  | none => []

/-- No two line items share a product id. -/
def UniqueIds (cart : List LineItem) : Prop :=
  (cart.map (fun item => item.id)).Nodup

instance (cart : List LineItem) : Decidable (UniqueIds cart) := by
  unfold UniqueIds; infer_instance

/-- Total quantity held in the cart for product `id`. -/
def quantityOf (id : Int) (cart : List LineItem) : Int :=
  ((cart.filter (fun item => item.id == id)).map (fun item => item.quantity)).sum

/-- Every line item has quantity at least one. -/
def QuantitiesPositive (cart : List LineItem) : Prop :=
  ∀ item ∈ cart, 1 ≤ item.quantity

instance (cart : List LineItem) : Decidable (QuantitiesPositive cart) := by
  unfold QuantitiesPositive; infer_instance

/-! ## `script.js`: class `ShoppingCart` -/

/-- State of a `ShoppingCart` object together with the browser state it writes:
`products` and `cart` are the fields of the object, `storedCart` is the value under
the `localStorage` key `'cart'`, `cartItemsListeners` counts the click listeners that
`renderCartItems` has bound on the `#cart-items` element, and `pendingCheckouts`
counts the checkout timers started by `handleCheckout` that have not fired yet. -/
structure ShoppingCart where
  products : List Product
  cart : List LineItem
  storedCart : Option (List LineItem)
  cartItemsListeners : Nat
  pendingCheckouts : Nat
deriving DecidableEq

/-- The catalog of `initializeProducts` (`script.js` lines 18-63). -/
def initializeProducts : List Product :=
  [ { id := 1, title := "Premium Wireless Headphones",
      description := "High-quality audio with noise cancellation and 30-hour battery life.",
      price := 299.99,
      image := "https://images.unsplash.com/photo-1505740420928-5e560c06d30e?w=400&h=300&fit=crop" },
    { id := 2, title := "Smart Fitness Watch",
      description := "Track your health and fitness with advanced sensors and GPS.",
      price := 199.99,
      image := "https://images.unsplash.com/photo-1523275335684-37898b6baf30?w=400&h=300&fit=crop" },
    { id := 3, title := "Portable Bluetooth Speaker",
      description := "Waterproof speaker with 360-degree sound and 12-hour playtime.",
      price := 89.99,
      image := "https://images.unsplash.com/photo-1608043152269-423dbba4e7e1?w=400&h=300&fit=crop" },
    { id := 4, title := "Wireless Charging Pad",
      description := "Fast wireless charging for all Qi-enabled devices with LED indicator.",
      price := 49.99,
      image := "https://images.unsplash.com/photo-1586953208448-b95a79798f07?w=400&h=300&fit=crop" },
    { id := 5, title := "USB-C Hub",
      description := "7-in-1 hub with HDMI, USB 3.0, SD card reader, and power delivery.",
      price := 79.99,
      image := "https://images.unsplash.com/photo-1625842268584-8f3296236761?w=400&h=300&fit=crop" },
    { id := 6, title := "Mechanical Keyboard",
      description := "RGB backlit mechanical keyboard with tactile switches and aluminum frame.",
      price := 159.99,
      image := "https://images.unsplash.com/photo-1541140532154-b024d705b90a?w=400&h=300&fit=crop" } ]

/-- Method `saveCart` (lines 322-324): `localStorage.setItem('cart', JSON.stringify(this.cart))`. -/
def ShoppingCart.saveCart (s : ShoppingCart) : ShoppingCart :=
  { s with storedCart := some s.cart }

/-- Method `updateCartCount` (lines 191-195): the number shown in the badge and
whether the badge is visible. -/
def ShoppingCart.updateCartCount (s : ShoppingCart) : Int × Bool :=
  let totalItems := s.cart.foldl (fun sum item => sum + item.quantity) 0
  (totalItems, decide (totalItems > 0))

/-- Method `renderCartItems` (lines 197-264). For the empty cart it writes the
placeholder and returns; otherwise it rewrites the markup and binds one more click
listener on the `#cart-items` element. -/
def ShoppingCart.renderCartItems (s : ShoppingCart) : ShoppingCart :=
  if s.cart.length = 0 then s
  else { s with cartItemsListeners := s.cartItemsListeners + 1 }

/-- Values computed by `updateCartTotals`: the numbers whose two-decimal renderings
are written to `#cart-subtotal` and `#cart-total`, and the `disabled` flag of the
checkout button. -/
structure CartTotals where
  subtotal : ℚ
  total : ℚ
  checkoutDisabled : Bool
deriving DecidableEq

/-- Method `updateCartTotals` (lines 266-274). -/
def ShoppingCart.updateCartTotals (s : ShoppingCart) : CartTotals :=
  let subtotal := s.cart.foldl (fun (sum : ℚ) item => sum + item.price * (item.quantity : ℚ)) 0
  let total := subtotal
  { subtotal := subtotal, total := total, checkoutDisabled := decide (s.cart.length = 0) }

/-- Method `updateCartUI` (lines 185-189). `updateCartCount` and `updateCartTotals`
only write text computed from the cart, so the state changes through
`renderCartItems` alone. -/
def ShoppingCart.updateCartUI (s : ShoppingCart) : ShoppingCart :=
  s.renderCartItems

/-- The constructor (lines 7-16): the catalog, the cart read from storage, and a first
`updateCartUI`. -/
def ShoppingCart.new (stored : Option (List LineItem)) : ShoppingCart :=
  ShoppingCart.updateCartUI
    { products := initializeProducts, cart := parseCart stored, storedCart := stored,
      cartItemsListeners := 0, pendingCheckouts := 0 }

/-- Method `addToCart` (lines 144-163). `find` returns the first matching element;
the assignment `existingItem.quantity += 1` mutates that element in place, that is,
the element at the first matching index. The toast and the badge animation do not
touch the cart. -/
def ShoppingCart.addToCart (s : ShoppingCart) (productId : Int) : ShoppingCart :=
  match s.products.find? (fun p => p.id == productId) with
  | none => s
  | some product =>
    let cart :=
      match s.cart.find? (fun item => item.id == productId) with
      | some existingItem =>
        s.cart.set (s.cart.findIdx (fun item => item.id == productId))
          { existingItem with quantity := existingItem.quantity + 1 }
      | none => s.cart ++ [product.toLineItem 1]
    ShoppingCart.updateCartUI (ShoppingCart.saveCart { s with cart := cart })

/-- Method `removeFromCart` (lines 165-169). -/
def ShoppingCart.removeFromCart (s : ShoppingCart) (productId : Int) : ShoppingCart :=
  ShoppingCart.updateCartUI (ShoppingCart.saveCart
    { s with cart := s.cart.filter (fun item => item.id != productId) })

/-- Method `updateQuantity` (lines 171-183). -/
def ShoppingCart.updateQuantity (s : ShoppingCart) (productId : Int) (newQuantity : Int) :
    ShoppingCart :=
  if newQuantity ≤ 0 then s.removeFromCart productId
  else
    match s.cart.find? (fun item => item.id == productId) with
    | some item =>
      ShoppingCart.updateCartUI (ShoppingCart.saveCart
        { s with cart := s.cart.set (s.cart.findIdx (fun item => item.id == productId))
                            { item with quantity := newQuantity } })
    | none => s

/-- What the alert of `handleCheckout` reports (line 312): the number of line items
and the total, the latter before its two-decimal rendering. -/
def ShoppingCart.checkoutSummary (s : ShoppingCart) : Nat × ℚ :=
  (s.cart.length, s.cart.foldl (fun (sum : ℚ) item => sum + item.price * (item.quantity : ℚ)) 0)

/-- Method `handleCheckout` (lines 304-320), up to the `setTimeout`: nothing for the
empty cart, otherwise one more pending checkout timer. -/
def ShoppingCart.handleCheckout (s : ShoppingCart) : ShoppingCart :=
  if s.cart.length = 0 then s
  else { s with pendingCheckouts := s.pendingCheckouts + 1 }

/-- The timer callback of `handleCheckout` (lines 311-319): it fires only if a checkout
is pending, then empties the cart, saves it and refreshes the sidebar. -/
def ShoppingCart.checkoutTimer (s : ShoppingCart) : ShoppingCart :=
  if s.pendingCheckouts = 0 then s
  else
    ShoppingCart.updateCartUI (ShoppingCart.saveCart
      { s with cart := [], pendingCheckouts := s.pendingCheckouts - 1 })

/-- The cart that the storage holds for this page. -/
def ShoppingCart.persistedCart (s : ShoppingCart) : List LineItem :=
  parseCart s.storedCart

/-- The events that drive a `ShoppingCart` after its construction. -/
inductive CartEvent where
  | add (productId : Int)
  | remove (productId : Int)
  | update (productId : Int) (newQuantity : Int)
  | checkout
  | checkoutTimerFires
deriving DecidableEq

/-- One event applied to the state. -/
def ShoppingCart.step (s : ShoppingCart) : CartEvent → ShoppingCart
  | .add productId => s.addToCart productId
  | .remove productId => s.removeFromCart productId
  | .update productId newQuantity => s.updateQuantity productId newQuantity
  | .checkout => s.handleCheckout
  | .checkoutTimerFires => s.checkoutTimer

/-- A sequence of events applied from left to right. -/
def ShoppingCart.run (s : ShoppingCart) (events : List CartEvent) : ShoppingCart :=
  events.foldl ShoppingCart.step s

/-! ## `ui.js`, `cart.js`, `products.js`: the pages that work on the stored cart -/

/-- Browser state seen by the cart page and the product page: whether
`window.uiManager` is defined, and the value under the `localStorage` key `'cart'`. -/
structure Page where
  uiManager : Bool
  storedCart : Option (List LineItem)
deriving DecidableEq

/-- Method `UIManager.getCart` (`ui.js` lines 36-38). -/
def UIManager.getCart (w : Page) : List LineItem :=
  parseCart w.storedCart

/-- Method `UIManager.saveCart` (`ui.js` lines 41-45); the badge and button refreshes
only write text computed from the stored cart. -/
def UIManager.saveCart (w : Page) (cart : List LineItem) : Page :=
  { w with storedCart := some cart }

/-- Method `UIManager.calculateTax` (`ui.js` lines 88-90). -/
def UIManager.calculateTax (subtotal : ℚ) : ℚ :=
  subtotal * 0.085

/-- The expression `window.uiManager?.getCart() || []`. -/
def Page.cart (w : Page) : List LineItem :=
  if w.uiManager then UIManager.getCart w else []

/-- The expression `x || 0` on a number: a falsy number is replaced by `0`. -/
def orZero (x : ℚ) : ℚ :=
  if x = 0 then 0 else x

/-- Method `CartManager.removeItem` (`cart.js` lines 130-140). -/
def CartManager.removeItem (w : Page) (itemId : Int) : Page :=
  let cart := w.cart
  let updatedCart := cart.filter (fun item => item.id != itemId)
  if w.uiManager then UIManager.saveCart w updatedCart else w

/-- Method `CartManager.updateQuantity` (`cart.js` lines 108-128). -/
def CartManager.updateQuantity (w : Page) (itemId : Int) (change : Int) : Page :=
  let cart := w.cart
  match cart.find? (fun item => item.id == itemId) with
  | none => w
  | some item =>
    let newQuantity := item.quantity + change
    if newQuantity ≤ 0 then CartManager.removeItem w itemId
    else
      let cart := cart.set (cart.findIdx (fun item => item.id == itemId))
        { item with quantity := newQuantity }
      if w.uiManager then UIManager.saveCart w cart else w

/-- Values computed by `CartManager.updateSummary`, before their rendering as text. -/
structure Summary where
  itemCount : Int
  subtotal : ℚ
  tax : ℚ
  total : ℚ
  checkoutDisabled : Bool
deriving DecidableEq

/-- Method `CartManager.updateSummary` (`cart.js` lines 142-176). -/
def CartManager.updateSummary (w : Page) (cart : List LineItem) : Summary :=
  let itemCount := cart.foldl (fun sum item => sum + item.quantity) 0
  let subtotal := cart.foldl (fun (sum : ℚ) item => sum + item.price * (item.quantity : ℚ)) 0
  let tax := if w.uiManager then orZero (UIManager.calculateTax subtotal) else 0
  let total := subtotal + tax
  { itemCount := itemCount, subtotal := subtotal, tax := tax, total := total,
    checkoutDisabled := decide (cart.length = 0) }

/-- Method `ProductManager.addToCart` (`products.js` lines 223-260) on the path taken
when `isAuthenticated()` is false: the product lookup (lines 225-226) and the local
cart branch (lines 236-245). `products` is the list the page has loaded. -/
def ProductManager.addToCartLocal (products : List Product) (w : Page) (productId : Int) :
    Page :=
  match products.find? (fun p => p.id == productId) with
  | none => w
  | some product =>
    let cart := w.cart
    let cart :=
      match cart.find? (fun item => item.id == productId) with
      | some existingItem =>
        cart.set (cart.findIdx (fun item => item.id == productId))
          { existingItem with quantity := existingItem.quantity + 1 }
      | none => cart ++ [product.toLineItem 1]
    if w.uiManager then UIManager.saveCart w cart else w

/-! ## Reference definitions taken from the specification -/

/-- Specification of the merge: the first line item with the given id has its quantity
increased by one; every other item, every other field and the order are kept. -/
def incrementFirst (id : Int) : List LineItem → List LineItem
  | [] => []
  | item :: rest =>
    if item.id = id then
      { id := item.id, title := item.title, description := item.description,
        price := item.price, image := item.image, quantity := item.quantity + 1 } :: rest
    else item :: incrementFirst id rest

/-- Specification of `add(product, qty=1)`: an id outside the catalog leaves the cart
as it is; an id already in the cart increments the first such line item; otherwise a
line item with the catalog product's fields and quantity one is appended. -/
def addToCartReference (products : List Product) (cart : List LineItem) (id : Int) :
    List LineItem :=
  match products.find? (fun p => decide (p.id = id)) with
  | none => cart
  | some product =>
    if ∃ item ∈ cart, item.id = id then incrementFirst id cart
    else cart ++ [{ id := product.id, title := product.title,
                    description := product.description, price := product.price,
                    image := product.image, quantity := 1 }]

/-! ## Auxiliary list functions used in the proofs -/

/-- Apply `f` to the first element satisfying `p`, keeping everything else. -/
def mapFirst {α : Type} (p : α → Bool) (f : α → α) : List α → List α
  | [] => []
  | x :: xs => if p x then f x :: xs else x :: mapFirst p f xs

/-- The line item with its quantity replaced. -/
def LineItem.withQuantity (item : LineItem) (q : Int) : LineItem :=
  { item with quantity := q }

/-- The function applied by `existingItem.quantity += 1`. -/
def LineItem.increment (item : LineItem) : LineItem :=
  { item with quantity := item.quantity + 1 }

/-- The cart computed by the merge-by-id of `addToCart` once the product is found. -/
def mergeInto (product : Product) (id : Int) (cart : List LineItem) : List LineItem :=
  match cart.find? (fun item => item.id == id) with
  | some _ => mapFirst (fun item => item.id == id) LineItem.increment cart
  | none => cart ++ [product.toLineItem 1]

/-- The cart computed by the assignment `item.quantity = q` on the first match. -/
def setQuantity (id : Int) (q : Int) (cart : List LineItem) : List LineItem :=
  mapFirst (fun item => item.id == id) (fun item => item.withQuantity q) cart

/-! ## The stored text: `JSON.stringify` and `JSON.parse` -/

/-- A JSON value. `localStorage` holds the text of such a value; the text is modelled
by the value it denotes. -/
inductive Json where
  | null
  | bool (b : Bool)
  | num (q : ℚ)
  | str (s : String)
  | arr (items : List Json)
  | obj (fields : List (String × Json))

/-- Truthiness of a parsed JSON value, as tested by the operator in `x || []`. -/
def Json.truthy : Json → Bool
  | .null => false
  | .bool b => b
  | .num q => decide (q ≠ 0)
  | .str s => decide (s ≠ "")
  | .arr _ => true
  | .obj _ => true

/-- Property access `value.key` on a parsed JSON value. -/
def Json.field (key : String) : Json → Option Json
  | .obj fields => fields.lookup key
  | _ => none

/-- The value as an integer, when it is a number without fractional part. -/
def Json.toInt? : Json → Option Int
  | .num q => if q.den = 1 then some q.num else none
  | _ => none

/-- The value as a number. -/
def Json.toRat? : Json → Option ℚ
  | .num q => some q
  | _ => none

/-- The value as a string. -/
def Json.toStr? : Json → Option String
  | .str s => some s
  | _ => none

/-- What `JSON.stringify` writes for one line item: an object with its six own properties
in insertion order. -/
def LineItem.toJson (item : LineItem) : Json :=
  .obj [("id", .num (item.id : ℚ)), ("title", .str item.title),
        ("description", .str item.description), ("price", .num item.price),
        ("image", .str item.image), ("quantity", .num (item.quantity : ℚ))]

/-- What `JSON.stringify(cart)` writes for a list of line items. -/
def stringifyCart (cart : List LineItem) : Json :=
  .arr (cart.map LineItem.toJson)

/-- A parsed object read back as a line item. -/
def LineItem.ofJson? (j : Json) : Option LineItem :=
  match j.field "id", j.field "title", j.field "description", j.field "price",
      j.field "image", j.field "quantity" with
  | some id, some title, some description, some price, some image, some quantity =>
    match id.toInt?, title.toStr?, description.toStr?, price.toRat?, image.toStr?,
        quantity.toInt? with
    | some id, some title, some description, some price, some image, some quantity =>
      some { id := id, title := title, description := description, price := price,
             image := image, quantity := quantity }
    | _, _, _, _, _, _ => none
  | _, _, _, _, _, _ => none

/-- A parsed array read back as a list of line items. -/
def lineItemsOfJson? : List Json → Option (List LineItem)
  | [] => some []
  | j :: rest =>
    match LineItem.ofJson? j, lineItemsOfJson? rest with
    | some item, some items => some (item :: items)
    | _, _ => none

/-- The expression `JSON.parse(localStorage.getItem('cart')) || []` on the raw stored
value: an absent key and a falsy value give the empty list; `none` is returned when the
stored value is not a list of line items. -/
def readStoredCart (raw : Option Json) : Option (List LineItem) :=
  match raw with
  | none => some []
  | some j =>
    if j.truthy then
      match j with
      | .arr items => lineItemsOfJson? items
      | _ => none
    else some []

/-! ## `ui.js`: currency rendering -/

/-- Rounding to two decimals, a tie going up. -/
def roundHalfUpCents (x : ℚ) : ℚ :=
  ((⌊x * 100 + 1 / 2⌋ : ℤ) : ℚ) / 100

/-- Method `UIManager.formatCurrency` (`ui.js` lines 80-85): the amount that
`Intl.NumberFormat('en-US', { style: 'currency', currency: 'USD' })` prints, which has two
fraction digits and is rounded with ties away from zero. -/
def UIManager.formatCurrency (amount : ℚ) : ℚ :=
  if 0 ≤ amount then roundHalfUpCents amount else -roundHalfUpCents (-amount)

/-- The amounts written by `CartManager.updateSummary` (`cart.js` lines 157-171) into
`#items-total`, `#tax-amount` and `#final-total` when the UI manager is present. -/
def CartManager.summaryAmounts (w : Page) (cart : List LineItem) : ℚ × ℚ × ℚ :=
  let summary := CartManager.updateSummary w cart
  (UIManager.formatCurrency summary.subtotal, UIManager.formatCurrency summary.tax,
   UIManager.formatCurrency summary.total)

/-! ## `cart.js`: checkout on the cart page -/

/-- The cart page together with the number of checkout timers started by
`CartManager.handleCheckout` that have not fired yet. -/
structure CartPage where
  page : Page
  pendingCheckouts : Nat
deriving DecidableEq

/-- Method `CartManager.handleCheckout` (`cart.js` lines 183-215), up to the
`setTimeout`: nothing for the empty cart, otherwise one more pending checkout timer. -/
def CartManager.handleCheckout (c : CartPage) : CartPage :=
  if c.page.cart.length = 0 then c
  else { c with pendingCheckouts := c.pendingCheckouts + 1 }

/-- The timer callback of `CartManager.handleCheckout` (lines 196-214): it fires only if
a checkout is pending, then saves the empty cart through the UI manager. -/
def CartManager.checkoutTimer (c : CartPage) : CartPage :=
  if c.pendingCheckouts = 0 then c
  else
    { page := if c.page.uiManager then UIManager.saveCart c.page [] else c.page,
      pendingCheckouts := c.pendingCheckouts - 1 }

/-- The events of the cart page other than the firing of a checkout timer. -/
inductive CartPageEvent where
  | updateQuantity (itemId : Int) (change : Int)
  | removeItem (itemId : Int)
  | checkout
deriving DecidableEq

/-- One cart page event applied to the state. -/
def CartPage.step (c : CartPage) : CartPageEvent → CartPage
  | .updateQuantity itemId change =>
    { c with page := CartManager.updateQuantity c.page itemId change }
  | .removeItem itemId => { c with page := CartManager.removeItem c.page itemId }
  | .checkout => CartManager.handleCheckout c

/-- A sequence of cart page events applied from left to right. -/
def CartPage.run (c : CartPage) (events : List CartPageEvent) : CartPage :=
  events.foldl CartPage.step c

/-! ## `config.js` and `api.js`: class `APIService` -/

/-- A JavaScript object with string values: its properties in insertion order. -/
abbrev Headers := List (String × String)

/-- One property written by a spread: a key that is present keeps its place and takes the
new value, a new key goes last. -/
def setProperty (obj : Headers) (key value : String) : Headers :=
  if obj.any (fun p => p.1 == key) then
    obj.map (fun p => if p.1 == key then (key, value) else p)
  else obj ++ [(key, value)]

/-- The object literal `{ ...obj, ...ext }`. -/
def spread (obj ext : Headers) : Headers :=
  ext.foldl (fun acc p => setProperty acc p.1 p.2) obj

/-- Property lookup `obj[key]`. -/
def getProperty (obj : Headers) (key : String) : Option String :=
  obj.lookup key

/-- `API_CONFIG.BASE_URL` (`config.js` line 6). -/
def API_CONFIG.BASE_URL : String := "http://localhost:8000"

/-- `API_CONFIG.TIMEOUT` (`config.js` line 34), in milliseconds. -/
def API_CONFIG.TIMEOUT : Nat := 10000

/-- `API_CONFIG.HEADERS` (`config.js` lines 37-40). -/
def API_CONFIG.HEADERS : Headers :=
  [("Content-Type", "application/json"), ("Accept", "application/json")]

/-- `API_CONFIG.ENDPOINTS.LOGIN`. -/
def API_CONFIG.ENDPOINTS.LOGIN : String := "/auth/login"

/-- `API_CONFIG.ENDPOINTS.REGISTER`. -/
def API_CONFIG.ENDPOINTS.REGISTER : String := "/auth/register"

/-- `API_CONFIG.ENDPOINTS.LOGOUT`. -/
def API_CONFIG.ENDPOINTS.LOGOUT : String := "/auth/logout"

/-- `API_CONFIG.ENDPOINTS.ADD_TO_CART`. -/
def API_CONFIG.ENDPOINTS.ADD_TO_CART : String := "/cart/add"

/-- `API_CONFIG.ENDPOINTS.UPDATE_CART`. -/
def API_CONFIG.ENDPOINTS.UPDATE_CART : String := "/cart/update"

/-- `API_CONFIG.ENDPOINTS.REMOVE_FROM_CART`. -/
def API_CONFIG.ENDPOINTS.REMOVE_FROM_CART : String := "/cart/remove"

/-- `API_CONFIG.ENDPOINTS.RECENTLY_VIEWED`. -/
def API_CONFIG.ENDPOINTS.RECENTLY_VIEWED : String := "/user/recently-viewed"

/-- A JavaScript `Error`: its `name` and its `message`. -/
structure JsError where
  name : String
  message : String
deriving DecidableEq

/-- The expression `new Error(message)`. -/
def JsError.new (message : String) : JsError :=
  { name := "Error", message := message }

/-- The method `String.prototype.includes`. -/
def includes (s pattern : String) : Bool :=
  decide (pattern.toList <:+: s.toList)

/-- The text under the `localStorage` key `'user_data'`: either the text of a JSON value,
or the text `undefined`, which is what `setItem` stores when `JSON.stringify` is given
`undefined`. -/
inductive StoredProfile where
  | json (value : Json)
  | undefinedText

/-- State of the `APIService` object together with the two `localStorage` keys it writes:
`token` is the field `this.token` (`none` for `null`), `auth_token` and `user_data` are
the stored values (`none` for an absent key). -/
structure APIService where
  baseURL : String
  timeout : Nat
  token : Option String
  auth_token : Option String
  user_data : Option StoredProfile

/-- The constructor (`api.js` lines 6-10). -/
def APIService.new (auth_token : Option String) (user_data : Option StoredProfile) :
    APIService :=
  { baseURL := API_CONFIG.BASE_URL, timeout := API_CONFIG.TIMEOUT, token := auth_token,
    auth_token := auth_token, user_data := user_data }

/-- Method `isAuthenticated` (lines 181-183): `!!this.token`; `null` and the empty string
are falsy. -/
def APIService.isAuthenticated (api : APIService) : Bool :=
  match api.token with
  | some token => decide (token ≠ "")
  | none => false

/-- Method `setAuth` (lines 169-173). -/
def APIService.setAuth (api : APIService) (token : String) (user : Option Json) :
    APIService :=
  { api with
    token := some token
    auth_token := some token
    user_data := some (match user with
      | some value => StoredProfile.json value
      | none => StoredProfile.undefinedText) }

/-- Method `clearAuth` (lines 175-179). -/
def APIService.clearAuth (api : APIService) : APIService :=
  { api with token := none, auth_token := none, user_data := none }

/-- Method `handleError` (lines 47-56): the possibly changed service state and the error
that `request` throws. -/
def APIService.handleError (api : APIService) (error : JsError) : APIService × JsError :=
  if error.name = "AbortError" then (api, JsError.new "Request timeout")
  else if includes error.message "401" then
    (api.clearAuth, JsError.new "Authentication required")
  else (api, error)

/-- The `options` argument of `request`: the keys that the callers use, `none` for an
absent key. -/
structure RequestOptions where
  method : Option String
  body : Option Json
  headers : Option Headers

/-- The call `request(endpoint)` with the default `options = {}`. -/
def RequestOptions.empty : RequestOptions :=
  { method := none, body := none, headers := none }

/-- What `request` hands to `fetch` (lines 14-32): the url, the `headers`, `method` and
`body` of `config`, and the delay after which the abort timer cancels the call. -/
structure FetchCall where
  url : String
  headers : Headers
  method : Option String
  body : Option Json
  abortAfter : Nat

/-- The `headers` literal of `config` (lines 17-21): the defaults, then the
`Authorization` entry when `this.token` is truthy, then `options.headers`. -/
def APIService.mergedHeaders (api : APIService) (options : RequestOptions) : Headers :=
  let auth : Headers :=
    match api.token with
    | some token => if token ≠ "" then [("Authorization", "Bearer " ++ token)] else []
    | none => []
  let own : Headers :=
    match options.headers with
    | some headers => headers
    | none => []
  spread (spread API_CONFIG.HEADERS auth) own

/-- The `fetch` issued by `request` (lines 14-32). In `config` the spread `...options`
comes after the `headers` literal, so a `headers` key of `options` takes the place of
the merged headers. -/
def APIService.fetchCall (api : APIService) (endpoint : String) (options : RequestOptions) :
    FetchCall :=
  { url := api.baseURL ++ endpoint
    headers :=
      match options.headers with
      | some headers => headers
      | none => api.mergedHeaders options
    method := options.method
    body := options.body
    abortAfter := api.timeout }

/-- How a `fetch` ends: a response with `ok` true and a parsed body, a response with `ok`
false, or a rejection (an abort, a transport failure, a body that does not parse). -/
inductive FetchOutcome (β : Type) where
  | ok (body : β)
  | notOk (status : Nat) (statusText : String)
  | rejected (error : JsError)

/-- A finished `request`: the service state afterwards, the `fetch` that was issued and
the value returned or the error thrown. -/
structure Completed (β : Type) where
  api : APIService
  fetch : FetchCall
  result : Except JsError β

/-- Method `request` (lines 13-45) for a given outcome of the `fetch`. -/
def APIService.request {β : Type} (api : APIService) (endpoint : String)
    (options : RequestOptions) (outcome : FetchOutcome β) : Completed β :=
  let fetch := api.fetchCall endpoint options
  match outcome with
  | .ok body => { api := api, fetch := fetch, result := .ok body }
  | .notOk status statusText =>
    let handled := api.handleError
      (JsError.new ("HTTP " ++ toString status ++ ": " ++ statusText))
    { api := handled.1, fetch := fetch, result := .error handled.2 }
  | .rejected error =>
    let handled := api.handleError error
    { api := handled.1, fetch := fetch, result := .error handled.2 }

/-- The body of a login response: `access_token` is a string when present. -/
structure LoginResponse where
  access_token : Option String
  user : Option Json

/-- Method `login` (lines 59-69). -/
def APIService.login (api : APIService) (credentials : Json)
    (outcome : FetchOutcome LoginResponse) : Completed LoginResponse :=
  let done := api.request API_CONFIG.ENDPOINTS.LOGIN
    { method := some "POST", body := some credentials, headers := none } outcome
  match done.result with
  | .ok response =>
    match response.access_token with
    | some token =>
      if token ≠ "" then { done with api := done.api.setAuth token response.user } else done
    | none => done
  | .error _ => done

/-- Method `register` (lines 71-76). -/
def APIService.register (api : APIService) (userData : Json) (outcome : FetchOutcome Json) :
    Completed Json :=
  api.request API_CONFIG.ENDPOINTS.REGISTER
    { method := some "POST", body := some userData, headers := none } outcome

/-- Method `logout` (lines 78-84): the `finally` block runs `clearAuth` whatever the
request did. -/
def APIService.logout (api : APIService) (outcome : FetchOutcome Json) : Completed Json :=
  let done := api.request API_CONFIG.ENDPOINTS.LOGOUT
    { method := some "POST", body := none, headers := none } outcome
  { done with api := done.api.clearAuth }

/-- Method `addToCart` of the service (lines 124-129). -/
def APIService.addToCart (api : APIService) (productId : Int) (quantity : Int)
    (outcome : FetchOutcome Json) : Completed Json :=
  api.request API_CONFIG.ENDPOINTS.ADD_TO_CART
    { method := some "POST"
      body := some (.obj [("product_id", .num (productId : ℚ)),
                          ("quantity", .num (quantity : ℚ))])
      headers := none } outcome

/-- Method `updateCart` of the service (lines 131-136). -/
def APIService.updateCart (api : APIService) (productId : Int) (quantity : Int)
    (outcome : FetchOutcome Json) : Completed Json :=
  api.request API_CONFIG.ENDPOINTS.UPDATE_CART
    { method := some "PUT"
      body := some (.obj [("product_id", .num (productId : ℚ)),
                          ("quantity", .num (quantity : ℚ))])
      headers := none } outcome

/-- Method `removeFromCart` of the service (lines 138-143). -/
def APIService.removeFromCart (api : APIService) (productId : Int)
    (outcome : FetchOutcome Json) : Completed Json :=
  api.request API_CONFIG.ENDPOINTS.REMOVE_FROM_CART
    { method := some "DELETE"
      body := some (.obj [("product_id", .num (productId : ℚ))])
      headers := none } outcome

/-- Method `addToRecentlyViewed` of the service (lines 161-166). -/
def APIService.addToRecentlyViewed (api : APIService) (productId : Int)
    (outcome : FetchOutcome Json) : Completed Json :=
  api.request API_CONFIG.ENDPOINTS.RECENTLY_VIEWED
    { method := some "POST"
      body := some (.obj [("product_id", .num (productId : ℚ))])
      headers := none } outcome

/-- What can happen to the service after an error was handled. -/
inductive APIEvent where
  | request (endpoint : String) (options : RequestOptions) (outcome : FetchOutcome Json)
  | login (credentials : Json) (outcome : FetchOutcome LoginResponse)
  | register (userData : Json) (outcome : FetchOutcome Json)
  | logout (outcome : FetchOutcome Json)
  | clearAuth
  | reload

/-- One event applied to the service; `reload` constructs the service anew on the
storage as it is. -/
def APIService.step (api : APIService) : APIEvent → APIService
  | .request endpoint options outcome => (api.request endpoint options outcome).api
  | .login credentials outcome => (api.login credentials outcome).api
  | .register userData outcome => (api.register userData outcome).api
  | .logout outcome => (api.logout outcome).api
  | .clearAuth => api.clearAuth
  | .reload => APIService.new api.auth_token api.user_data

/-- A sequence of events applied from left to right. -/
def APIService.run (api : APIService) (events : List APIEvent) : APIService :=
  events.foldl APIService.step api

/-- The event is a login whose response carries a non-empty access token. -/
def APIEvent.isNewLogin : APIEvent → Bool
  | .login _ (.ok response) =>
    match response.access_token with
    | some token => decide (token ≠ "")
    | none => false
  | _ => false

/-! ## The product page and the cart page next to the service -/

/-- The browser as the product page and the cart page see it: the service object, the
page state with the stored cart, and the `fetch` calls issued so far, oldest first. -/
structure Browser where
  api : APIService
  page : Page
  fetches : List FetchCall

/-- Method `ProductManager.addToCart` (`products.js` lines 223-260). `recent` and `add`
are the outcomes of the two requests of the authenticated path. Both requests are issued
before either of them ends: `addToRecentlyViewed` is not awaited, and the second
`isAuthenticated()` test runs in the same turn. The toast, the badge animation, the
`recentlyAdded` marker and the navigation do not touch the cart, and the `catch` block
only shows a toast. -/
def ProductManager.addToCart (products : List Product) (b : Browser) (productId : Int)
    (recent add : FetchOutcome Json) : Browser :=
  match products.find? (fun p => p.id == productId) with
  | none => b
  | some product =>
    if b.api.isAuthenticated then
      let viewed := b.api.addToRecentlyViewed productId recent
      let added := b.api.addToCart productId 1 add
      { b with
        api := (viewed.api.addToCart productId 1 add).api
        fetches := b.fetches ++ [viewed.fetch, added.fetch] }
    else
      let cart := b.page.cart
      let cart :=
        match cart.find? (fun item => item.id == productId) with
        | some existingItem =>
          cart.set (cart.findIdx (fun item => item.id == productId))
            { existingItem with quantity := existingItem.quantity + 1 }
        | none => cart ++ [product.toLineItem 1]
      { b with page := if b.page.uiManager then UIManager.saveCart b.page cart else b.page }

/-- Method `CartManager.updateQuantity` run in the browser: `cart.js` never refers to
`window.apiService`, so the service and the list of `fetch` calls stay as they are. -/
def Browser.cartUpdateQuantity (b : Browser) (itemId change : Int) : Browser :=
  { b with page := CartManager.updateQuantity b.page itemId change }

/-- Method `CartManager.removeItem` run in the browser; see `Browser.cartUpdateQuantity`. -/
def Browser.cartRemoveItem (b : Browser) (itemId : Int) : Browser :=
  { b with page := CartManager.removeItem b.page itemId }

/-! ## `products.js`: the debounced search -/

/-- A pending timer of `setTimeout`: its id and the time at which it is due. -/
structure Timer where
  id : Nat
  due : Nat
deriving DecidableEq

/-- One call of `loadProducts`: when it was issued and the `search` and `page` parameters
it sends. -/
structure LoadCall where
  time : Nat
  searchQuery : String
  currentPage : Nat
deriving DecidableEq

/-- State of the search box of `initSearch` (`products.js` lines 148-162): the clock in
milliseconds, the timers set by the input listener that are still pending, the closure
variable `searchTimeout` (`none` for `undefined`), the current value of the input
element, the fields `searchQuery` and `currentPage` of the product manager, and the
calls of `loadProducts` made by the timer callback, oldest first. -/
structure SearchBox where
  now : Nat
  nextTimerId : Nat
  timers : List Timer
  searchTimeout : Option Nat
  inputValue : String
  searchQuery : String
  currentPage : Nat
  loads : List LoadCall
deriving DecidableEq

/-- The search box right after `initSearch`: `searchQuery` is `''` and `currentPage` is 1
(constructor, lines 9-10), no timer has been set. -/
def SearchBox.init : SearchBox :=
  { now := 0, nextTimerId := 1, timers := [], searchTimeout := none, inputValue := "",
    searchQuery := "", currentPage := 1, loads := [] }

/-- The timer callback (lines 157-159), run at time `time`: it reads the value of the input
element, resets the page and calls `loadProducts`, which sends the two fields. -/
def SearchBox.timerCallback (s : SearchBox) (time : Nat) : SearchBox :=
  { s with
    searchQuery := s.inputValue
    currentPage := 1
    loads := s.loads ++ [{ time := time, searchQuery := s.inputValue, currentPage := 1 }] }

/-- The clock moves to `time`: the pending timers that are due by then fire in the order
of their due times and are no longer pending. -/
def SearchBox.advance (s : SearchBox) (time : Nat) : SearchBox :=
  let due := (s.timers.filter (fun timer => timer.due ≤ time)).insertionSort
    (fun a b => a.due ≤ b.due)
  let fired := due.foldl (fun acc timer => acc.timerCallback timer.due) s
  { fired with
    now := max s.now time
    timers := s.timers.filter (fun timer => ¬ timer.due ≤ time) }

/-- The call `clearTimeout(id)`. -/
def SearchBox.clearTimeout (s : SearchBox) (id : Option Nat) : SearchBox :=
  match id with
  | some id => { s with timers := s.timers.filter (fun timer => timer.id != id) }
  | none => s

/-- An `input` event at time `time` that leaves `value` in the input element (lines
154-161): the timers due by then fire first, then the listener clears the timer named by
`searchTimeout` and sets a new one of 300 ms. -/
def SearchBox.input (s : SearchBox) (time : Nat) (value : String) : SearchBox :=
  let s := s.advance time
  let s := { s with inputValue := value }
  let s := s.clearTimeout s.searchTimeout
  { s with
    timers := s.timers ++ [{ id := s.nextTimerId, due := s.now + 300 }]
    searchTimeout := some s.nextTimerId
    nextTimerId := s.nextTimerId + 1 }

/-- What happens to the search box: an input event or the passing of time. -/
inductive SearchEvent where
  | input (time : Nat) (value : String)
  | advance (time : Nat)
deriving DecidableEq

/-- One event applied to the search box. -/
def SearchBox.step (s : SearchBox) : SearchEvent → SearchBox
  | .input time value => s.input time value
  | .advance time => s.advance time

/-- A sequence of events applied from left to right. -/
def SearchBox.run (s : SearchBox) (events : List SearchEvent) : SearchBox :=
  events.foldl SearchBox.step s

/-- A sequence of keystrokes, each given by its time and the value it leaves. -/
def SearchBox.type (s : SearchBox) (keystrokes : List (Nat × String)) : SearchBox :=
  keystrokes.foldl (fun acc key => acc.input key.1 key.2) s

/-- Consecutive keystrokes are in time order and less than 300 ms apart. -/
def CloseTogether (keystrokes : List (Nat × String)) : Prop :=
  keystrokes.Chain' (fun a b => a.1 ≤ b.1 ∧ b.1 < a.1 + 300)

instance (keystrokes : List (Nat × String)) : Decidable (CloseTogether keystrokes) :=
  inferInstanceAs (Decidable (List.Chain' _ keystrokes))

/-- At most one timer of the search box is pending, and `searchTimeout` names it. -/
def SearchBox.SingleTimer (s : SearchBox) : Prop :=
  s.timers = [] ∨ ∃ id due, s.timers = [{ id := id, due := due }] ∧ s.searchTimeout = some id

/-- Exactly one timer is pending, due 300 ms after `time`, while the clock shows `time` and
the input element holds `value`. -/
def SearchBox.Armed (s : SearchBox) (time : Nat) (value : String) : Prop :=
  (∃ id, s.timers = [{ id := id, due := time + 300 }] ∧ s.searchTimeout = some id) ∧
  s.now = time ∧ s.inputValue = value

/-! ## `script.js`: clicks on the cart sidebar -/

/-- The control of a rendered cart item that a click hits, told by its class:
`decrease`, `increase` or `remove-item`. -/
inductive CartControl where
  | decrease
  | increase
  | remove
deriving DecidableEq

/-- The `TypeError` raised by the expression `item.quantity` when `item` is `undefined`. -/
def quantityOfUndefined : JsError :=
  { name := "TypeError", message := "item is undefined" }

/-- One run of the click listener that `renderCartItems` binds on `#cart-items`
(`script.js` lines 251-263) for a click on `control` of the item `itemId`. -/
def ShoppingCart.cartItemsListener (s : ShoppingCart) (control : CartControl) (itemId : Int) :
    Except JsError ShoppingCart :=
  match control with
  | .decrease =>
    match s.cart.find? (fun item => item.id == itemId) with
    | some item => .ok (s.updateQuantity itemId (item.quantity - 1))
    | none => .error quantityOfUndefined
  | .increase =>
    match s.cart.find? (fun item => item.id == itemId) with
    | some item => .ok (s.updateQuantity itemId (item.quantity + 1))
    | none => .error quantityOfUndefined
  | .remove => .ok (s.removeFromCart itemId)

/-- The dispatch of one click to a given number of listeners, one after the other. A
listener that throws has changed nothing; its error is reported and the next listener
runs. -/
def ShoppingCart.dispatchClick (control : CartControl) (itemId : Int) :
    Nat → ShoppingCart × List JsError → ShoppingCart × List JsError
  | 0, acc => acc
  | n + 1, (s, errors) =>
    match s.cartItemsListener control itemId with
    | .ok next => ShoppingCart.dispatchClick control itemId n (next, errors)
    | .error e => ShoppingCart.dispatchClick control itemId n (s, errors ++ [e])

/-- One click: every listener that is bound on `#cart-items` when the click happens runs
once; listeners bound by the renders that happen during the dispatch do not run for this
click. The result is the state afterwards and the errors raised. -/
def ShoppingCart.click (s : ShoppingCart) (control : CartControl) (itemId : Int) :
    ShoppingCart × List JsError :=
  ShoppingCart.dispatchClick control itemId s.cartItemsListeners (s, [])

/-- The control is part of the rendered sidebar and can be clicked (markup of lines
208-246): there is a line item with that id, and for the decrease button its quantity is
above 1, since the button is rendered `disabled` otherwise. -/
def ShoppingCart.rendered (s : ShoppingCart) (control : CartControl) (itemId : Int) : Bool :=
  s.cart.any (fun item =>
    item.id == itemId && (control != CartControl.decrease || decide (1 < item.quantity)))

/-- What the user does with the sidebar cart: an add, a render, a click on a control. -/
inductive SidebarEvent where
  | add (productId : Int)
  | render
  | click (control : CartControl) (itemId : Int)
deriving DecidableEq

/-- One sidebar event applied to the state and the errors raised so far; a click on a
control that is not rendered does nothing. -/
def ShoppingCart.sidebarStep (acc : ShoppingCart × List JsError) :
    SidebarEvent → ShoppingCart × List JsError
  | .add productId => (acc.1.addToCart productId, acc.2)
  | .render => (ShoppingCart.updateCartUI acc.1, acc.2)
  | .click control itemId =>
    if acc.1.rendered control itemId then
      ((acc.1.click control itemId).1, acc.2 ++ (acc.1.click control itemId).2)
    else acc

/-- A sequence of sidebar events applied from left to right, starting without errors. -/
def ShoppingCart.sidebarRun (s : ShoppingCart) (events : List SidebarEvent) :
    ShoppingCart × List JsError :=
  events.foldl ShoppingCart.sidebarStep (s, [])

/-- The quantity of the line item that `find` returns for the id, if there is one. -/
def foundQuantity (id : Int) (cart : List LineItem) : Option Int :=
  (cart.find? (fun item => item.id == id)).map (fun item => item.quantity)

/-! ## `ui.js`, `api.js`, `auth.js`: the badge, the profile and the logout -/

/-- Method `UIManager.updateCartCount` (`ui.js` lines 24-33): the number written to the
navbar badge and whether the badge is visible. -/
def UIManager.updateCartCount (w : Page) : Int × Bool :=
  let cart := UIManager.getCart w
  let totalItems := cart.foldl (fun sum item => sum + item.quantity) 0
  (totalItems, decide (totalItems > 0))

/-- The `SyntaxError` raised by `JSON.parse` on the text `undefined`. -/
def undefinedIsNotJson : JsError :=
  { name := "SyntaxError", message := "undefined is not valid JSON" }

/-- Method `getUser` (`api.js` lines 185-188): `null` when nothing is stored, else the
parsed profile; `JSON.parse` throws on the text `undefined`. -/
def APIService.getUser (api : APIService) : Except JsError Json :=
  match api.user_data with
  | none => .ok .null
  | some (.json value) => .ok value
  | some .undefinedText => .error undefinedIsNotJson

/-- Method `AuthManager.handleLogout` (`auth.js` lines 119-134) for a given outcome of the
logout request: the request of `logout` is the only one issued, and the `catch` block
clears the session once more when `logout` throws. -/
def AuthManager.handleLogout (b : Browser) (outcome : FetchOutcome Json) : Browser :=
  let done := b.api.logout outcome
  match done.result with
  | .ok _ => { b with api := done.api, fetches := b.fetches ++ [done.fetch] }
  | .error _ => { b with api := done.api.clearAuth, fetches := b.fetches ++ [done.fetch] }

/-! ## Concrete carts used as examples -/

/-- The cart of the specification's scenario: two units of product 1 at 10 and one unit
of product 2 at 5. -/
def scenarioCart : List LineItem :=
  [ { id := 1, title := "first", description := "", price := 10, image := "", quantity := 2 },
    { id := 2, title := "second", description := "", price := 5, image := "", quantity := 1 } ]

/-- A `ShoppingCart` constructed on a storage that holds the scenario cart. -/
def scenarioShop : ShoppingCart :=
  ShoppingCart.new (some scenarioCart)

/-- The cart page with the UI manager loaded and the scenario cart in storage. -/
def scenarioPage : Page :=
  { uiManager := true, storedCart := some scenarioCart }

/-- A service that holds the token `abc`. -/
def scenarioService : APIService :=
  APIService.new (some "abc") none

/-- A browser with an active session and the scenario cart in storage. -/
def scenarioBrowser : Browser :=
  { api := scenarioService, page := scenarioPage, fetches := [] }

/-- A call of `request` whose options carry a `headers` key. -/
def scenarioOptions : RequestOptions :=
  { method := some "GET", body := none, headers := some [("X-Trace", "1")] }

/-- The sidebar cart after `addToCart(1)`, `addToCart(2)`, `addToCart(1)` on a fresh page:
product 1 twice, product 2 once, and three click listeners. -/
def threeAdds : ShoppingCart :=
  ((ShoppingCart.new none).sidebarRun
    [SidebarEvent.add 1, SidebarEvent.add 2, SidebarEvent.add 1]).1

/-- The sidebar cart after `addToCart(1)` twice on a fresh page: product 1 twice and two
click listeners. -/
def twoAdds : ShoppingCart :=
  ((ShoppingCart.new none).sidebarRun [SidebarEvent.add 1, SidebarEvent.add 1]).1

/-- A stored cart in which two line items carry the id 1, with quantities 2 and 5. -/
def duplicateCart : List LineItem :=
  [ { id := 1, title := "first", description := "", price := 10, image := "", quantity := 2 },
    { id := 1, title := "again", description := "", price := 10, image := "", quantity := 5 } ]

/-- The cart page with the UI manager loaded and the cart with the repeated id in
storage. -/
def duplicatePage : Page :=
  { uiManager := true, storedCart := some duplicateCart }

/-- A `ShoppingCart` constructed on a storage that holds the cart with the repeated id. -/
def duplicateShop : ShoppingCart :=
  ShoppingCart.new (some duplicateCart)

/-! ## List lemmas -/

theorem set_findIdx_eq_mapFirst {α : Type} (p : α → Bool) (f : α → α) (l : List α) (x : α)
    (h : l.find? p = some x) : l.set (l.findIdx p) (f x) = mapFirst p f l := by
  induction l with
  | nil => simp at h
  | cons y ys ih =>
    by_cases hy : p y = true
    · simp [List.find?_cons, hy] at h
      subst h
      simp [List.findIdx_cons, hy, mapFirst]
    · simp [List.find?_cons, hy] at h
      simp [List.findIdx_cons, hy, mapFirst, ih h]

theorem mapFirst_of_find?_none {α : Type} (p : α → Bool) (f : α → α) (l : List α)
    (h : l.find? p = none) : mapFirst p f l = l := by
  induction l with
  | nil => rfl
  | cons y ys ih =>
    by_cases hy : p y = true
    · simp [List.find?_cons, hy] at h
    · have h' : ys.find? p = none := by simpa [List.find?_cons, hy] using h
      simp [mapFirst, hy, ih h']

theorem length_mapFirst {α : Type} (p : α → Bool) (f : α → α) (l : List α) :
    (mapFirst p f l).length = l.length := by
  induction l with
  | nil => rfl
  | cons y ys ih =>
    by_cases hy : p y = true <;> simp [mapFirst, hy, ih]

/-- Decomposition of `mapFirst` around the first match. -/
theorem mapFirst_split {α : Type} (p : α → Bool) (f : α → α) (l : List α) (x : α)
    (h : l.find? p = some x) :
    ∃ pre post, l = pre ++ x :: post ∧ (∀ y ∈ pre, p y = false) ∧ p x = true ∧
      mapFirst p f l = pre ++ f x :: post := by
  induction l with
  | nil => simp at h
  | cons y ys ih =>
    by_cases hy : p y = true
    · simp [List.find?_cons, hy] at h
      subst h
      exact ⟨[], ys, by simp, by simp, hy, by simp [mapFirst, hy]⟩
    · simp [List.find?_cons, hy] at h
      obtain ⟨pre, post, h1, h2, h3, h4⟩ := ih h
      refine ⟨y :: pre, post, by simp [h1], ?_, h3, by simp [mapFirst, hy, h4]⟩
      intro z hz
      rcases List.mem_cons.mp hz with rfl | hz
      · simpa using hy
      · exact h2 z hz

theorem map_id_mapFirst (id : Int) (f : LineItem → LineItem) (hf : ∀ x, (f x).id = x.id)
    (l : List LineItem) :
    (mapFirst (fun item => item.id == id) f l).map (fun item => item.id)
      = l.map (fun item => item.id) := by
  induction l with
  | nil => rfl
  | cons y ys ih =>
    by_cases hy : (y.id == id) = true <;> simp [mapFirst, hy, ih, hf]

/-! ## Field lemmas for the `ShoppingCart` methods -/

@[simp] theorem updateCartUI_cart (s : ShoppingCart) :
    (ShoppingCart.updateCartUI s).cart = s.cart := by
  unfold ShoppingCart.updateCartUI ShoppingCart.renderCartItems
  split <;> rfl

@[simp] theorem updateCartUI_storedCart (s : ShoppingCart) :
    (ShoppingCart.updateCartUI s).storedCart = s.storedCart := by
  unfold ShoppingCart.updateCartUI ShoppingCart.renderCartItems
  split <;> rfl

@[simp] theorem updateCartUI_products (s : ShoppingCart) :
    (ShoppingCart.updateCartUI s).products = s.products := by
  unfold ShoppingCart.updateCartUI ShoppingCart.renderCartItems
  split <;> rfl

@[simp] theorem saveCart_cart (s : ShoppingCart) : (ShoppingCart.saveCart s).cart = s.cart := rfl

@[simp] theorem saveCart_storedCart (s : ShoppingCart) :
    (ShoppingCart.saveCart s).storedCart = some s.cart := rfl

@[simp] theorem saveCart_products (s : ShoppingCart) :
    (ShoppingCart.saveCart s).products = s.products := rfl

/-- The cart after `addToCart`, as a function of the cart before. -/
theorem addToCart_cart (s : ShoppingCart) (productId : Int) :
    (s.addToCart productId).cart =
      match s.products.find? (fun p => p.id == productId) with
      | none => s.cart
      | some product => mergeInto product productId s.cart := by
  unfold ShoppingCart.addToCart
  cases hp : s.products.find? (fun p => p.id == productId) with
  | none => rfl
  | some product =>
    simp only [updateCartUI_cart, saveCart_cart]
    unfold mergeInto
    cases hc : s.cart.find? (fun item => item.id == productId) with
    | none => rfl
    | some existingItem =>
      exact set_findIdx_eq_mapFirst _ LineItem.increment s.cart existingItem hc

/-- The stored cart after `addToCart`. -/
theorem addToCart_storedCart (s : ShoppingCart) (productId : Int) :
    (s.addToCart productId).storedCart =
      match s.products.find? (fun p => p.id == productId) with
      | none => s.storedCart
      | some product => some (mergeInto product productId s.cart) := by
  have hcart := addToCart_cart s productId
  unfold ShoppingCart.addToCart at hcart ⊢
  cases hp : s.products.find? (fun p => p.id == productId) with
  | none => rfl
  | some product =>
    simp only [hp, updateCartUI_cart, saveCart_cart] at hcart
    simp only [updateCartUI_storedCart, saveCart_storedCart, hcart]

@[simp] theorem addToCart_products (s : ShoppingCart) (productId : Int) :
    (s.addToCart productId).products = s.products := by
  unfold ShoppingCart.addToCart
  cases s.products.find? (fun p => p.id == productId) <;> simp

@[simp] theorem removeFromCart_cart (s : ShoppingCart) (productId : Int) :
    (s.removeFromCart productId).cart = s.cart.filter (fun item => item.id != productId) := by
  simp [ShoppingCart.removeFromCart]

@[simp] theorem removeFromCart_storedCart (s : ShoppingCart) (productId : Int) :
    (s.removeFromCart productId).storedCart
      = some (s.cart.filter (fun item => item.id != productId)) := by
  simp [ShoppingCart.removeFromCart]

/-- The cart after `updateQuantity`, as a function of the cart before. -/
theorem updateQuantity_cart (s : ShoppingCart) (productId newQuantity : Int) :
    (s.updateQuantity productId newQuantity).cart =
      if newQuantity ≤ 0 then s.cart.filter (fun item => item.id != productId)
      else setQuantity productId newQuantity s.cart := by
  unfold ShoppingCart.updateQuantity
  by_cases hq : newQuantity ≤ 0
  · simp [hq]
  · simp only [hq, if_false]
    unfold setQuantity
    cases hc : s.cart.find? (fun item => item.id == productId) with
    | none => simp [mapFirst_of_find?_none _ _ _ hc]
    | some item =>
      simp only [updateCartUI_cart, saveCart_cart]
      exact set_findIdx_eq_mapFirst _ (fun item => item.withQuantity newQuantity) s.cart item hc

/-! ## The merge-by-id on lists -/

theorem mapFirst_increment_eq_incrementFirst (id : Int) (l : List LineItem) :
    mapFirst (fun item => item.id == id) LineItem.increment l = incrementFirst id l := by
  induction l with
  | nil => rfl
  | cons y ys ih =>
    by_cases hy : y.id = id
    · simp [mapFirst, incrementFirst, hy, LineItem.increment]
    · simp [mapFirst, incrementFirst, hy, ih]

theorem find?_id_eq_none_iff (id : Int) (l : List LineItem) :
    l.find? (fun item => item.id == id) = none ↔ ∀ item ∈ l, item.id ≠ id := by
  simp [List.find?_eq_none]

theorem find?_id_some (id : Int) (l : List LineItem) (x : LineItem)
    (h : l.find? (fun item => item.id == id) = some x) : x ∈ l ∧ x.id = id := by
  refine ⟨List.mem_of_find?_eq_some h, ?_⟩
  simpa using List.find?_some h

theorem find?_product_some (id : Int) (l : List Product) (x : Product)
    (h : l.find? (fun p => p.id == id) = some x) : x ∈ l ∧ x.id = id := by
  refine ⟨List.mem_of_find?_eq_some h, ?_⟩
  simpa using List.find?_some h

theorem find?_product_of_mem (l : List Product) (A : Product) (hA : A ∈ l) :
    ∃ p, l.find? (fun p => p.id == A.id) = some p ∧ p.id = A.id := by
  cases h : l.find? (fun p => p.id == A.id) with
  | none =>
    have := List.find?_eq_none.mp h A hA
    simp at this
  | some p => exact ⟨p, rfl, (find?_product_some _ _ _ h).2⟩

theorem mergeInto_of_absent (product : Product) (id : Int) (cart : List LineItem)
    (h : ∀ item ∈ cart, item.id ≠ id) :
    mergeInto product id cart = cart ++ [product.toLineItem 1] := by
  unfold mergeInto
  rw [(find?_id_eq_none_iff id cart).mpr h]

theorem mergeInto_of_present (product : Product) (id : Int) (cart : List LineItem)
    (h : ∃ item ∈ cart, item.id = id) :
    mergeInto product id cart = mapFirst (fun item => item.id == id) LineItem.increment cart := by
  unfold mergeInto
  cases hc : cart.find? (fun item => item.id == id) with
  | some x => rfl
  | none =>
    obtain ⟨item, hmem, hid⟩ := h
    exact absurd hid ((find?_id_eq_none_iff id cart).mp hc item hmem)

theorem ids_mergeInto (product : Product) (id : Int) (cart : List LineItem)
    (hp : product.id = id) :
    (mergeInto product id cart).map (fun item => item.id) =
      if ∃ item ∈ cart, item.id = id then cart.map (fun item => item.id)
      else cart.map (fun item => item.id) ++ [id] := by
  by_cases h : ∃ item ∈ cart, item.id = id
  · rw [mergeInto_of_present _ _ _ h, if_pos h]
    exact map_id_mapFirst id LineItem.increment (fun x => rfl) cart
  · rw [if_neg h, mergeInto_of_absent]
    · simp [Product.toLineItem, hp]
    · intro item hmem hid
      exact h ⟨item, hmem, hid⟩

theorem uniqueIds_mergeInto (product : Product) (id : Int) (cart : List LineItem)
    (hp : product.id = id) (h : UniqueIds cart) : UniqueIds (mergeInto product id cart) := by
  unfold UniqueIds at h ⊢
  rw [ids_mergeInto _ _ _ hp]
  split
  · exact h
  · rename_i hno
    rw [List.nodup_append]
    refine ⟨h, List.nodup_singleton _, ?_⟩
    intro a ha hb
    rw [List.mem_singleton] at hb
    subst hb
    obtain ⟨item, hmem, hid⟩ := List.mem_map.mp ha
    exact hno ⟨item, hmem, hid⟩

theorem mem_ids_mergeInto (product : Product) (id : Int) (cart : List LineItem)
    (hp : product.id = id) : ∃ item ∈ mergeInto product id cart, item.id = id := by
  have h := ids_mergeInto product id cart hp
  have hmem : id ∈ (mergeInto product id cart).map (fun item => item.id) := by
    rw [h]
    split
    · rename_i hex
      obtain ⟨item, hm, hid⟩ := hex
      exact List.mem_map.mpr ⟨item, hm, hid⟩
    · simp
  obtain ⟨item, hm, hid⟩ := List.mem_map.mp hmem
  exact ⟨item, hm, hid⟩

theorem quantityOf_append (id : Int) (l₁ l₂ : List LineItem) :
    quantityOf id (l₁ ++ l₂) = quantityOf id l₁ + quantityOf id l₂ := by
  simp [quantityOf, List.filter_append]

theorem quantityOf_mergeInto (product : Product) (id : Int) (cart : List LineItem)
    (hp : product.id = id) :
    quantityOf id (mergeInto product id cart) = quantityOf id cart + 1 := by
  unfold mergeInto
  cases hc : cart.find? (fun item => item.id == id) with
  | none =>
    simp only [quantityOf_append]
    simp [quantityOf, Product.toLineItem, hp]
  | some x =>
    obtain ⟨pre, post, h1, _, h3, h4⟩ := mapFirst_split _ LineItem.increment cart x hc
    simp only [h4]
    rw [h1]
    have hx : x.id = id := by simpa using h3
    simp only [quantityOf_append]
    simp [quantityOf, List.filter_cons, hx, LineItem.increment]
    ring

theorem length_filter_id_of_unique (id : Int) (cart : List LineItem) (h : UniqueIds cart)
    (hmem : ∃ item ∈ cart, item.id = id) :
    (cart.filter (fun item => item.id == id)).length = 1 := by
  induction cart with
  | nil => simp at hmem
  | cons y ys ih =>
    unfold UniqueIds at h
    rw [List.map_cons, List.nodup_cons] at h
    by_cases hy : y.id = id
    · have hnone : ∀ item ∈ ys, ¬ (item.id = id) := by
        intro item hm hid
        exact h.1 (List.mem_map.mpr ⟨item, hm, by rw [hid, hy]⟩)
      have : ys.filter (fun item => item.id == id) = [] := by
        simp [List.filter_eq_nil_iff]
        exact hnone
      simp [List.filter_cons, hy, this]
    · obtain ⟨item, hm, hid⟩ := hmem
      rcases List.mem_cons.mp hm with rfl | hm
      · exact absurd hid hy
      · simp [List.filter_cons, hy]
        exact ih h.2 ⟨item, hm, hid⟩

theorem uniqueIds_filter (p : LineItem → Bool) (cart : List LineItem) (h : UniqueIds cart) :
    UniqueIds (cart.filter p) := by
  unfold UniqueIds at h ⊢
  exact h.sublist (List.Sublist.map _ (List.filter_sublist cart))

theorem uniqueIds_setQuantity (id q : Int) (cart : List LineItem) (h : UniqueIds cart) :
    UniqueIds (setQuantity id q cart) := by
  unfold UniqueIds setQuantity at *
  rw [map_id_mapFirst id (fun item => item.withQuantity q) (fun x => rfl) cart]
  exact h

/-- The page after the local branch of `ProductManager.addToCart`. -/
theorem addToCartLocal_eq (products : List Product) (w : Page) (productId : Int) :
    ProductManager.addToCartLocal products w productId =
      match products.find? (fun p => p.id == productId) with
      | none => w
      | some product =>
        if w.uiManager then UIManager.saveCart w (mergeInto product productId w.cart) else w := by
  unfold ProductManager.addToCartLocal
  cases hp : products.find? (fun p => p.id == productId) with
  | none => rfl
  | some product =>
    simp only
    unfold mergeInto
    cases hc : w.cart.find? (fun item => item.id == productId) with
    | none => rfl
    | some existingItem =>
      rw [← set_findIdx_eq_mapFirst _ LineItem.increment w.cart existingItem hc]
      rfl

/-! ## Claims about adding to the cart -/

/-- C1: for a catalog product `A`, two calls of `ShoppingCart.addToCart A.id` on a cart
without a line item for `A` leave exactly one line item with `A`'s id, of quantity 2;
and on any cart with unique ids they leave one entry with `A`'s id and raise the total
quantity held for `A` by 2. -/
theorem addToCart_twice_merges (s : ShoppingCart) (A : Product) (hA : A ∈ s.products) :
    ((∀ item ∈ s.cart, item.id ≠ A.id) →
      ∃ item, ((s.addToCart A.id).addToCart A.id).cart.filter (fun i => i.id == A.id) = [item]
        ∧ item.id = A.id ∧ item.quantity = 2) ∧
    (UniqueIds s.cart →
      (((s.addToCart A.id).addToCart A.id).cart.filter (fun i => i.id == A.id)).length = 1 ∧
      UniqueIds ((s.addToCart A.id).addToCart A.id).cart ∧
      quantityOf A.id ((s.addToCart A.id).addToCart A.id).cart = quantityOf A.id s.cart + 2) := by
  obtain ⟨p, hfind, hpid⟩ := find?_product_of_mem s.products A hA
  have hcart : ((s.addToCart A.id).addToCart A.id).cart
      = mergeInto p A.id (mergeInto p A.id s.cart) := by
    rw [addToCart_cart, addToCart_products, hfind, addToCart_cart, hfind]
  rw [hcart]
  constructor
  · intro habsent
    rw [mergeInto_of_absent p A.id s.cart habsent]
    have hpres : ∃ item ∈ s.cart ++ [p.toLineItem 1], item.id = A.id :=
      ⟨p.toLineItem 1, by simp, hpid⟩
    rw [mergeInto_of_present p A.id _ hpres]
    have hnone : s.cart.find? (fun item => item.id == A.id) = none :=
      (find?_id_eq_none_iff A.id s.cart).mpr habsent
    have hfirst : (s.cart ++ [p.toLineItem 1]).find? (fun item => item.id == A.id)
        = some (p.toLineItem 1) := by
      simp [List.find?_append, hnone, Product.toLineItem, hpid]
    obtain ⟨pre, post, h1, h2, _, h4⟩ :=
      mapFirst_split _ LineItem.increment (s.cart ++ [p.toLineItem 1]) (p.toLineItem 1) hfirst
    refine ⟨(p.toLineItem 1).increment, ?_, hpid, by simp [LineItem.increment, Product.toLineItem]⟩
    have hfilter : (s.cart ++ [p.toLineItem 1]).filter (fun i => i.id == A.id)
        = [p.toLineItem 1] := by
      rw [List.filter_append]
      have : s.cart.filter (fun i => i.id == A.id) = [] := by
        simp [List.filter_eq_nil_iff]
        exact habsent
      simp [this, Product.toLineItem, hpid]
    rw [h1, List.filter_append, List.filter_cons] at hfilter
    rw [h4, List.filter_append, List.filter_cons]
    have hinc : ((p.toLineItem 1).increment.id == A.id) = true := by
      simp [LineItem.increment, Product.toLineItem, hpid]
    have horig : ((p.toLineItem 1).id == A.id) = true := by
      simp [Product.toLineItem, hpid]
    rw [if_pos horig] at hfilter
    rw [if_pos hinc]
    have hlen := congrArg List.length hfilter
    simp only [List.length_append, List.length_cons, List.length_nil] at hlen
    have hpre : (pre.filter (fun i => i.id == A.id)).length = 0 := by omega
    have hpost : (post.filter (fun i => i.id == A.id)).length = 0 := by omega
    rw [List.length_eq_zero] at hpre hpost
    rw [hpre, hpost]
    rfl
  · intro huniq
    have hu1 := uniqueIds_mergeInto p A.id s.cart hpid huniq
    have hu2 := uniqueIds_mergeInto p A.id _ hpid hu1
    refine ⟨length_filter_id_of_unique A.id _ hu2 (mem_ids_mergeInto p A.id _ hpid), hu2, ?_⟩
    rw [quantityOf_mergeInto p A.id _ hpid, quantityOf_mergeInto p A.id _ hpid]
    ring

/-- Witness for C1: the first catalog product added twice to the freshly constructed
empty cart. -/
theorem addToCart_twice_merges_witness :
    (∃ item, (((ShoppingCart.new none).addToCart 1).addToCart 1).cart.filter
        (fun i => i.id == 1) = [item] ∧ item.id = 1 ∧ item.quantity = 2) ∧
    quantityOf 1 (((ShoppingCart.new none).addToCart 1).addToCart 1).cart
      = quantityOf 1 (ShoppingCart.new none).cart + 2 :=
  have h := addToCart_twice_merges (ShoppingCart.new none)
    { id := 1, title := "Premium Wireless Headphones",
      description := "High-quality audio with noise cancellation and 30-hour battery life.",
      price := 299.99,
      image := "https://images.unsplash.com/photo-1505740420928-5e560c06d30e?w=400&h=300&fit=crop" }
    (List.mem_cons_self _ _)
  ⟨h.1 (by intro item hmem; cases hmem), (h.2 (by decide)).2.2⟩

/-- C3: for every state and id, the cart after `ShoppingCart.addToCart` is the one given
by the reference definition: unchanged for an id outside the catalog, the first line
item with that id incremented by one when there is one, and otherwise the catalog
product appended with quantity one. -/
theorem addToCart_eq_reference (s : ShoppingCart) (productId : Int) :
    (s.addToCart productId).cart = addToCartReference s.products s.cart productId := by
  rw [addToCart_cart]
  unfold addToCartReference
  have hpred : (fun p : Product => decide (p.id = productId)) = (fun p => p.id == productId) :=
    rfl
  rw [hpred]
  cases hp : s.products.find? (fun p => p.id == productId) with
  | none => rfl
  | some product =>
    dsimp only
    by_cases h : ∃ item ∈ s.cart, item.id = productId
    · rw [if_pos h, mergeInto_of_present _ _ _ h, mapFirst_increment_eq_incrementFirst]
    · rw [if_neg h, mergeInto_of_absent]
      · rfl
      · intro item hmem hid
        exact h ⟨item, hmem, hid⟩

/-- C2: unique product ids are preserved by `ShoppingCart.addToCart`, `removeFromCart`
and `updateQuantity` on the in-memory cart (and on the stored copy when it had unique
ids too), and by the local branch of `ProductManager.addToCart` on the stored cart,
for all arguments. -/
theorem uniqueIds_preserved (s : ShoppingCart) (products : List Product) (w : Page)
    (productId newQuantity : Int)
    (hcart : UniqueIds s.cart) (hpage : UniqueIds (UIManager.getCart w)) :
    UniqueIds (s.addToCart productId).cart ∧
    UniqueIds (s.removeFromCart productId).cart ∧
    UniqueIds (s.updateQuantity productId newQuantity).cart ∧
    UniqueIds (UIManager.getCart (ProductManager.addToCartLocal products w productId)) ∧
    (UniqueIds s.persistedCart →
      UniqueIds (s.addToCart productId).persistedCart ∧
      UniqueIds (s.removeFromCart productId).persistedCart ∧
      UniqueIds (s.updateQuantity productId newQuantity).persistedCart) := by
  have hadd : UniqueIds (s.addToCart productId).cart := by
    rw [addToCart_cart]
    cases hp : s.products.find? (fun p => p.id == productId) with
    | none => exact hcart
    | some product =>
      exact uniqueIds_mergeInto _ _ _ (find?_product_some _ _ _ hp).2 hcart
  have hrem : UniqueIds (s.removeFromCart productId).cart := by
    rw [removeFromCart_cart]
    exact uniqueIds_filter _ _ hcart
  have hupd : UniqueIds (s.updateQuantity productId newQuantity).cart := by
    rw [updateQuantity_cart]
    split
    · exact uniqueIds_filter _ _ hcart
    · exact uniqueIds_setQuantity _ _ _ hcart
  refine ⟨hadd, hrem, hupd, ?_, ?_⟩
  · rw [addToCartLocal_eq]
    cases hp : products.find? (fun p => p.id == productId) with
    | none => exact hpage
    | some product =>
      by_cases hui : w.uiManager = true
      · simp only [hui, if_true]
        have hw : w.cart = UIManager.getCart w := by simp [Page.cart, hui]
        rw [hw]
        exact uniqueIds_mergeInto _ _ _ (find?_product_some _ _ _ hp).2 hpage
      · simp only [hui, if_false]
        exact hpage
  · intro hstored
    refine ⟨?_, ?_, ?_⟩
    · unfold ShoppingCart.persistedCart at *
      rw [addToCart_storedCart]
      cases hp : s.products.find? (fun p => p.id == productId) with
      | none => exact hstored
      | some product =>
        exact uniqueIds_mergeInto _ _ _ (find?_product_some _ _ _ hp).2 hcart
    · unfold ShoppingCart.persistedCart
      rw [removeFromCart_storedCart]
      exact uniqueIds_filter _ _ hcart
    · unfold ShoppingCart.updateQuantity
      split
      · unfold ShoppingCart.persistedCart
        rw [removeFromCart_storedCart]
        exact uniqueIds_filter _ _ hcart
      · have hupd' := hupd
        unfold ShoppingCart.updateQuantity at hupd'
        rename_i hq
        simp only [hq, if_false] at hupd'
        cases hc : s.cart.find? (fun item => item.id == productId) with
        | none => exact hstored
        | some item =>
          simp only [hc] at hupd'
          simp only [updateCartUI_cart, saveCart_cart] at hupd'
          unfold ShoppingCart.persistedCart
          simp only [updateCartUI_storedCart, saveCart_storedCart]
          exact hupd'

/-- Witness for C2: the scenario cart in memory and in storage. -/
theorem uniqueIds_preserved_witness :
    UniqueIds (scenarioShop.addToCart 1).cart ∧
    UniqueIds (scenarioShop.removeFromCart 1).cart ∧
    UniqueIds (scenarioShop.updateQuantity 1 3).cart ∧
    UniqueIds (UIManager.getCart (ProductManager.addToCartLocal initializeProducts scenarioPage 1)) :=
  have h := uniqueIds_preserved scenarioShop initializeProducts scenarioPage 1 3
    (by decide) (by decide)
  ⟨h.1, h.2.1, h.2.2.1, h.2.2.2.1⟩

/-! ## Claims about `updateQuantity` and `removeFromCart` -/

theorem mem_filter_ne_id (id : Int) (cart : List LineItem) :
    ∀ item ∈ cart.filter (fun item => item.id != id), item.id ≠ id := by
  intro item hmem
  have := (List.mem_filter.mp hmem).2
  simpa using this

theorem filter_ne_id_of_absent (id : Int) (cart : List LineItem)
    (h : ∀ item ∈ cart, item.id ≠ id) : cart.filter (fun item => item.id != id) = cart := by
  rw [List.filter_eq_self]
  intro item hmem
  simpa using h item hmem

/-- C4: for every state, id and quantity `q ≤ 0`, `ShoppingCart.updateQuantity id q` yields
the very state that `ShoppingCart.removeFromCart id` yields (cart and storage included),
and afterwards neither the cart nor the stored cart has a line item with that id. -/
theorem updateQuantity_nonpos_eq_removeFromCart (s : ShoppingCart) (productId q : Int)
    (hq : q ≤ 0) :
    s.updateQuantity productId q = s.removeFromCart productId ∧
    (∀ item ∈ (s.updateQuantity productId q).cart, item.id ≠ productId) ∧
    (∀ item ∈ (s.updateQuantity productId q).persistedCart, item.id ≠ productId) := by
  have heq : s.updateQuantity productId q = s.removeFromCart productId := by
    unfold ShoppingCart.updateQuantity
    rw [if_pos hq]
  refine ⟨heq, ?_, ?_⟩
  · rw [heq, removeFromCart_cart]
    exact mem_filter_ne_id productId s.cart
  · unfold ShoppingCart.persistedCart
    rw [heq, removeFromCart_storedCart]
    exact mem_filter_ne_id productId s.cart

/-- Witness for C4: quantity `-1` for product 1 of the scenario cart. -/
theorem updateQuantity_nonpos_eq_removeFromCart_witness :
    scenarioShop.updateQuantity 1 (-1) = scenarioShop.removeFromCart 1 :=
  (updateQuantity_nonpos_eq_removeFromCart scenarioShop 1 (-1) (by decide)).1

theorem mapFirst_eq_map_of_unique (id : Int) (f : LineItem → LineItem) (cart : List LineItem)
    (h : UniqueIds cart) :
    mapFirst (fun item => item.id == id) f cart
      = cart.map (fun item => if item.id = id then f item else item) := by
  induction cart with
  | nil => rfl
  | cons y ys ih =>
    unfold UniqueIds at h
    rw [List.map_cons, List.nodup_cons] at h
    by_cases hy : y.id = id
    · have hrest : ys.map (fun item => if item.id = id then f item else item) = ys := by
        conv_rhs => rw [← List.map_id ys]
        apply List.map_congr_left
        intro item hmem
        have hne : item.id ≠ id := by
          intro hid
          exact h.1 (List.mem_map.mpr ⟨item, hmem, by rw [hid, hy]⟩)
        simp [hne]
      simp [mapFirst, hy, hrest]
    · have := ih h.2
      simp [mapFirst, hy, this]

/-- C5: on a cart with unique ids that holds the id, `ShoppingCart.updateQuantity id q` with
`q > 0` replaces the quantity of the line item with that id by `q` and changes nothing
else: the cart is the old cart with that one field rewritten, so the length, the order,
every other item and every other field are as before. -/
theorem updateQuantity_sets_quantity (s : ShoppingCart) (productId q : Int)
    (huniq : UniqueIds s.cart) (hmem : ∃ item ∈ s.cart, item.id = productId) (hq : 0 < q) :
    (s.updateQuantity productId q).cart
        = s.cart.map (fun item => if item.id = productId then { item with quantity := q } else item) ∧
    (s.updateQuantity productId q).cart.length = s.cart.length ∧
    (∃ item ∈ (s.updateQuantity productId q).cart, item.id = productId) ∧
    (∀ item ∈ (s.updateQuantity productId q).cart, item.id = productId → item.quantity = q) ∧
    (∀ item ∈ s.cart, item.id ≠ productId → item ∈ (s.updateQuantity productId q).cart) ∧
    (s.updateQuantity productId q).cart.map (fun item => item.id)
        = s.cart.map (fun item => item.id) := by
  have hcart : (s.updateQuantity productId q).cart
      = s.cart.map (fun item => if item.id = productId then { item with quantity := q } else item) := by
    rw [updateQuantity_cart, if_neg (by omega)]
    unfold setQuantity
    rw [mapFirst_eq_map_of_unique productId _ s.cart huniq]
    rfl
  refine ⟨hcart, ?_, ?_, ?_, ?_, ?_⟩
  · rw [hcart, List.length_map]
  · obtain ⟨item, hm, hid⟩ := hmem
    rw [hcart]
    exact ⟨{ item with quantity := q }, List.mem_map.mpr ⟨item, hm, by simp [hid]⟩, hid⟩
  · intro item hm hid
    rw [hcart] at hm
    obtain ⟨old, _, hold⟩ := List.mem_map.mp hm
    by_cases ho : old.id = productId
    · rw [if_pos ho] at hold
      rw [← hold]
    · rw [if_neg ho] at hold
      rw [← hold] at hid
      exact absurd hid ho
  · intro item hm hid
    rw [hcart]
    exact List.mem_map.mpr ⟨item, hm, by simp [hid]⟩
  · rw [hcart, List.map_map]
    apply List.map_congr_left
    intro item _
    by_cases ho : item.id = productId <;> simp [ho]

/-- Witness for C5: product 1 of the scenario cart set to quantity 7. -/
theorem updateQuantity_sets_quantity_witness :
    (scenarioShop.updateQuantity 1 7).cart.map (fun item => (item.id, item.quantity))
      = [(1, 7), (2, 1)] := by
  have h := (updateQuantity_sets_quantity scenarioShop 1 7 (by decide) (by decide) (by decide)).1
  rw [h]
  decide

/-! ## The stored cart mirrors the in-memory cart -/

/-- Every list of line items is the cart of a constructed `ShoppingCart`: the constructor
reads it from storage. -/
theorem new_cart (cart : List LineItem) : (ShoppingCart.new (some cart)).cart = cart := by
  simp [ShoppingCart.new, parseCart]

theorem persistedCart_new (stored : Option (List LineItem)) :
    (ShoppingCart.new stored).persistedCart = (ShoppingCart.new stored).cart := by
  simp [ShoppingCart.new, ShoppingCart.persistedCart]

theorem persistedCart_addToCart (s : ShoppingCart) (productId : Int)
    (h : s.persistedCart = s.cart) :
    (s.addToCart productId).persistedCart = (s.addToCart productId).cart := by
  unfold ShoppingCart.persistedCart at *
  rw [addToCart_storedCart, addToCart_cart]
  cases s.products.find? (fun p => p.id == productId) with
  | none => exact h
  | some product => rfl

theorem persistedCart_removeFromCart (s : ShoppingCart) (productId : Int) :
    (s.removeFromCart productId).persistedCart = (s.removeFromCart productId).cart := by
  simp [ShoppingCart.persistedCart, parseCart]

theorem persistedCart_updateQuantity (s : ShoppingCart) (productId q : Int)
    (h : s.persistedCart = s.cart) :
    (s.updateQuantity productId q).persistedCart = (s.updateQuantity productId q).cart := by
  unfold ShoppingCart.updateQuantity
  split
  · exact persistedCart_removeFromCart s productId
  · cases s.cart.find? (fun item => item.id == productId) with
    | none => exact h
    | some item => simp [ShoppingCart.persistedCart, parseCart]

theorem persistedCart_step (s : ShoppingCart) (e : CartEvent) (h : s.persistedCart = s.cart) :
    (s.step e).persistedCart = (s.step e).cart := by
  cases e with
  | add productId => exact persistedCart_addToCart s productId h
  | remove productId => exact persistedCart_removeFromCart s productId
  | update productId q => exact persistedCart_updateQuantity s productId q h
  | checkout =>
    show s.handleCheckout.persistedCart = s.handleCheckout.cart
    unfold ShoppingCart.handleCheckout
    split
    · exact h
    · exact h
  | checkoutTimerFires =>
    show s.checkoutTimer.persistedCart = s.checkoutTimer.cart
    unfold ShoppingCart.checkoutTimer
    split
    · exact h
    · simp [ShoppingCart.persistedCart, parseCart]

theorem persistedCart_run (s : ShoppingCart) (events : List CartEvent)
    (h : s.persistedCart = s.cart) : (s.run events).persistedCart = (s.run events).cart := by
  induction events generalizing s with
  | nil => exact h
  | cons e es ih => exact ih (s.step e) (persistedCart_step s e h)

theorem updateQuantity_absent_cart (s : ShoppingCart) (productId q : Int)
    (habsent : ∀ item ∈ s.cart, item.id ≠ productId) :
    (s.updateQuantity productId q).cart = s.cart := by
  rw [updateQuantity_cart]
  split
  · exact filter_ne_id_of_absent productId s.cart habsent
  · exact mapFirst_of_find?_none _ _ _ ((find?_id_eq_none_iff productId s.cart).mpr habsent)

theorem updateQuantity_absent_persisted (s : ShoppingCart) (productId q : Int)
    (hsync : s.persistedCart = s.cart) (habsent : ∀ item ∈ s.cart, item.id ≠ productId) :
    (s.updateQuantity productId q).persistedCart = s.persistedCart := by
  rw [persistedCart_updateQuantity s productId q hsync,
    updateQuantity_absent_cart s productId q habsent, hsync]

/-- C6: in every state reached from the constructor by any sequence of events, and for
every id that no line item carries, `ShoppingCart.updateQuantity id q` leaves the
in-memory cart and the persisted cart as they were, for every integer `q`; for `q > 0`
it leaves the whole state as it was. -/
theorem updateQuantity_absent_noop (stored : Option (List LineItem)) (events : List CartEvent)
    (productId q : Int)
    (habsent : ∀ item ∈ ((ShoppingCart.new stored).run events).cart, item.id ≠ productId) :
    (((ShoppingCart.new stored).run events).updateQuantity productId q).cart
        = ((ShoppingCart.new stored).run events).cart ∧
    (((ShoppingCart.new stored).run events).updateQuantity productId q).persistedCart
        = ((ShoppingCart.new stored).run events).persistedCart ∧
    (0 < q → ((ShoppingCart.new stored).run events).updateQuantity productId q
        = (ShoppingCart.new stored).run events) := by
  refine ⟨updateQuantity_absent_cart _ productId q habsent,
    updateQuantity_absent_persisted _ productId q
      (persistedCart_run _ events (persistedCart_new stored)) habsent, ?_⟩
  intro hq
  unfold ShoppingCart.updateQuantity
  rw [if_neg (by omega), (find?_id_eq_none_iff productId _).mpr habsent]

/-- Witness for C6: after one add on the scenario cart product 9 is absent; quantities 0
and 4. -/
theorem updateQuantity_absent_noop_witness :
    (((ShoppingCart.new (some scenarioCart)).run [CartEvent.add 3]).updateQuantity 9 0).cart
        = ((ShoppingCart.new (some scenarioCart)).run [CartEvent.add 3]).cart ∧
    (((ShoppingCart.new (some scenarioCart)).run [CartEvent.add 3]).updateQuantity 9 0).persistedCart
        = ((ShoppingCart.new (some scenarioCart)).run [CartEvent.add 3]).persistedCart ∧
    ((ShoppingCart.new (some scenarioCart)).run [CartEvent.add 3]).updateQuantity 9 4
        = (ShoppingCart.new (some scenarioCart)).run [CartEvent.add 3] :=
  have h0 := updateQuantity_absent_noop (some scenarioCart) [CartEvent.add 3] 9 0 (by decide)
  have h4 := updateQuantity_absent_noop (some scenarioCart) [CartEvent.add 3] 9 4 (by decide)
  ⟨h0.1, h0.2.1, h4.2.2 (by decide)⟩

/-- C7: for an id that no line item carries, `ShoppingCart.removeFromCart` leaves the
in-memory list of line items identical and `CartManager.removeItem` leaves the stored
list identical; both are total functions, so no error arises. -/
theorem remove_absent_noop (s : ShoppingCart) (w : Page) (productId : Int)
    (hs : ∀ item ∈ s.cart, item.id ≠ productId)
    (hw : ∀ item ∈ UIManager.getCart w, item.id ≠ productId) :
    (s.removeFromCart productId).cart = s.cart ∧
    UIManager.getCart (CartManager.removeItem w productId) = UIManager.getCart w := by
  constructor
  · rw [removeFromCart_cart]
    exact filter_ne_id_of_absent productId s.cart hs
  · unfold CartManager.removeItem
    by_cases hui : w.uiManager = true
    · simp only [hui, if_true]
      have hcart : w.cart = UIManager.getCart w := by simp [Page.cart, hui]
      rw [hcart, filter_ne_id_of_absent productId _ hw]
      rfl
    · simp only [hui, if_false]
      trivial

/-- Witness for C7: product 9 is in neither the scenario shop nor the scenario page. -/
theorem remove_absent_noop_witness :
    (scenarioShop.removeFromCart 9).cart = scenarioShop.cart ∧
    UIManager.getCart (CartManager.removeItem scenarioPage 9) = UIManager.getCart scenarioPage :=
  remove_absent_noop scenarioShop scenarioPage 9 (by decide) (by decide)

/-! ## Quantities stay positive -/

theorem quantitiesPositive_filter (p : LineItem → Bool) (cart : List LineItem)
    (h : QuantitiesPositive cart) : QuantitiesPositive (cart.filter p) := by
  intro item hmem
  exact h item (List.mem_filter.mp hmem).1

theorem quantitiesPositive_mapFirst (p : LineItem → Bool) (f : LineItem → LineItem)
    (cart : List LineItem) (hf : ∀ x ∈ cart, 1 ≤ x.quantity → 1 ≤ (f x).quantity)
    (h : QuantitiesPositive cart) : QuantitiesPositive (mapFirst p f cart) := by
  induction cart with
  | nil => exact h
  | cons y ys ih =>
    have hy : 1 ≤ y.quantity := h y (List.mem_cons_self _ _)
    have hys : QuantitiesPositive ys := fun item hm => h item (List.mem_cons_of_mem _ hm)
    by_cases hp : p y = true
    · simp only [mapFirst, hp, if_true]
      intro item hm
      rcases List.mem_cons.mp hm with rfl | hm
      · exact hf y (List.mem_cons_self _ _) hy
      · exact hys item hm
    · simp only [mapFirst, hp]
      intro item hm
      rcases List.mem_cons.mp hm with rfl | hm
      · exact hy
      · exact ih (fun x hx => hf x (List.mem_cons_of_mem _ hx)) hys item hm

theorem quantitiesPositive_mergeInto (product : Product) (id : Int) (cart : List LineItem)
    (h : QuantitiesPositive cart) : QuantitiesPositive (mergeInto product id cart) := by
  unfold mergeInto
  cases cart.find? (fun item => item.id == id) with
  | none =>
    intro item hm
    rcases List.mem_append.mp hm with hm | hm
    · exact h item hm
    · rw [List.mem_singleton] at hm
      subst hm
      simp [Product.toLineItem]
  | some x =>
    apply quantitiesPositive_mapFirst _ _ _ _ h
    intro y _ hy
    simp only [LineItem.increment]
    omega

theorem quantitiesPositive_setQuantity (id q : Int) (cart : List LineItem) (hq : 1 ≤ q)
    (h : QuantitiesPositive cart) : QuantitiesPositive (setQuantity id q cart) := by
  unfold setQuantity
  apply quantitiesPositive_mapFirst _ _ _ _ h
  intro y _ _
  exact hq

/-- The stored cart after `updateQuantity`. -/
theorem updateQuantity_storedCart (s : ShoppingCart) (productId q : Int) :
    (s.updateQuantity productId q).storedCart =
      if q ≤ 0 then some (s.cart.filter (fun item => item.id != productId))
      else
        match s.cart.find? (fun item => item.id == productId) with
        | some _ => some (setQuantity productId q s.cart)
        | none => s.storedCart := by
  have hcart := updateQuantity_cart s productId q
  unfold ShoppingCart.updateQuantity at hcart ⊢
  by_cases hq : q ≤ 0
  · simp [hq]
  · simp only [hq, if_false] at hcart ⊢
    cases hc : s.cart.find? (fun item => item.id == productId) with
    | none => rfl
    | some item =>
      simp only [hc, updateCartUI_cart, saveCart_cart] at hcart
      simp only [updateCartUI_storedCart, saveCart_storedCart, hcart]

/-- The page after `CartManager.updateQuantity`. -/
theorem cartManager_updateQuantity_eq (w : Page) (itemId change : Int) :
    CartManager.updateQuantity w itemId change =
      match w.cart.find? (fun item => item.id == itemId) with
      | none => w
      | some item =>
        if item.quantity + change ≤ 0 then CartManager.removeItem w itemId
        else if w.uiManager then
          UIManager.saveCart w (setQuantity itemId (item.quantity + change) w.cart)
        else w := by
  unfold CartManager.updateQuantity
  dsimp only
  cases hc : w.cart.find? (fun item => item.id == itemId) with
  | none => rfl
  | some item =>
    dsimp only
    unfold setQuantity
    rw [← set_findIdx_eq_mapFirst _ (fun x => x.withQuantity (item.quantity + change))
      w.cart item hc]
    rfl

theorem page_cart_of_uiManager (w : Page) (h : w.uiManager = true) :
    w.cart = UIManager.getCart w := by
  simp [Page.cart, h]

/-- C8: if every line item of the in-memory cart and of the stored cart has quantity at
least one, the same holds after `ShoppingCart.addToCart`, `removeFromCart` and
`updateQuantity` with any integer quantity, and the stored cart of the cart page keeps
the property under `CartManager.updateQuantity` with any integer change. -/
theorem quantitiesPositive_preserved (s : ShoppingCart) (w : Page)
    (productId q change : Int)
    (hcart : QuantitiesPositive s.cart) (hstored : QuantitiesPositive s.persistedCart)
    (hpage : QuantitiesPositive (UIManager.getCart w)) :
    (QuantitiesPositive (s.addToCart productId).cart ∧
      QuantitiesPositive (s.addToCart productId).persistedCart) ∧
    (QuantitiesPositive (s.removeFromCart productId).cart ∧
      QuantitiesPositive (s.removeFromCart productId).persistedCart) ∧
    (QuantitiesPositive (s.updateQuantity productId q).cart ∧
      QuantitiesPositive (s.updateQuantity productId q).persistedCart) ∧
    QuantitiesPositive (UIManager.getCart (CartManager.updateQuantity w productId change)) := by
  refine ⟨⟨?_, ?_⟩, ⟨?_, ?_⟩, ⟨?_, ?_⟩, ?_⟩
  · rw [addToCart_cart]
    cases s.products.find? (fun p => p.id == productId) with
    | none => exact hcart
    | some product => exact quantitiesPositive_mergeInto _ _ _ hcart
  · unfold ShoppingCart.persistedCart at *
    rw [addToCart_storedCart]
    cases s.products.find? (fun p => p.id == productId) with
    | none => exact hstored
    | some product => exact quantitiesPositive_mergeInto _ _ _ hcart
  · rw [removeFromCart_cart]
    exact quantitiesPositive_filter _ _ hcart
  · unfold ShoppingCart.persistedCart
    rw [removeFromCart_storedCart]
    exact quantitiesPositive_filter _ _ hcart
  · rw [updateQuantity_cart]
    split
    · exact quantitiesPositive_filter _ _ hcart
    · exact quantitiesPositive_setQuantity _ _ _ (by omega) hcart
  · unfold ShoppingCart.persistedCart at *
    rw [updateQuantity_storedCart]
    split
    · exact quantitiesPositive_filter _ _ hcart
    · cases s.cart.find? (fun item => item.id == productId) with
      | none => exact hstored
      | some item => exact quantitiesPositive_setQuantity _ _ _ (by omega) hcart
  · by_cases hui : w.uiManager = true
    · rw [cartManager_updateQuantity_eq, page_cart_of_uiManager w hui]
      cases (UIManager.getCart w).find? (fun item => item.id == productId) with
      | none => exact hpage
      | some item =>
        dsimp only
        by_cases hq : item.quantity + change ≤ 0
        · rw [if_pos hq]
          unfold CartManager.removeItem
          dsimp only
          rw [if_pos hui, page_cart_of_uiManager w hui]
          exact quantitiesPositive_filter _ _ hpage
        · rw [if_neg hq, if_pos hui]
          exact quantitiesPositive_setQuantity _ _ _ (by omega) hpage
    · have hw : w.cart = [] := by simp [Page.cart, hui]
      rw [cartManager_updateQuantity_eq, hw]
      exact hpage

/-- Witness for C8: the scenario cart, product 1 decreased by 5 on the cart page and set
to 0 in the sidebar cart. -/
theorem quantitiesPositive_preserved_witness :
    QuantitiesPositive (scenarioShop.updateQuantity 1 0).persistedCart ∧
    QuantitiesPositive (UIManager.getCart (CartManager.updateQuantity scenarioPage 1 (-5))) :=
  have h := quantitiesPositive_preserved scenarioShop scenarioPage 1 0 (-5)
    (by decide) (by decide) (by decide)
  ⟨h.2.2.1.2, h.2.2.2⟩

/-! ## Pricing -/

theorem foldl_add_eq_sum {M : Type} [AddMonoid M] (f : LineItem → M) (cart : List LineItem)
    (a : M) : cart.foldl (fun sum item => sum + f item) a = a + (cart.map f).sum := by
  induction cart generalizing a with
  | nil => simp
  | cons y ys ih => simp [List.foldl_cons, ih, add_assoc]

theorem orZero_eq (x : ℚ) : orZero x = x := by
  unfold orZero
  split
  · rename_i h
    exact h.symm
  · rfl

theorem scenarioShop_cart : scenarioShop.cart = scenarioCart := by
  simp [scenarioShop, ShoppingCart.new, parseCart]

/-- C9: with the UI manager present, `CartManager.updateSummary` computes the item count
as the sum of the quantities, the subtotal as the exact sum of price times quantity,
the tax as subtotal times 0.085 (`UIManager.calculateTax`) and the total as subtotal
plus tax, which is subtotal times 1.085. -/
theorem updateSummary_exact (w : Page) (cart : List LineItem) (hui : w.uiManager = true) :
    (CartManager.updateSummary w cart).itemCount = (cart.map (fun item => item.quantity)).sum ∧
    (CartManager.updateSummary w cart).subtotal
        = (cart.map (fun item => item.price * (item.quantity : ℚ))).sum ∧
    (CartManager.updateSummary w cart).tax
        = UIManager.calculateTax (CartManager.updateSummary w cart).subtotal ∧
    (CartManager.updateSummary w cart).tax = (CartManager.updateSummary w cart).subtotal * 0.085 ∧
    (CartManager.updateSummary w cart).total
        = (CartManager.updateSummary w cart).subtotal + (CartManager.updateSummary w cart).tax ∧
    (CartManager.updateSummary w cart).total
        = (CartManager.updateSummary w cart).subtotal * 1.085 := by
  have htax : (CartManager.updateSummary w cart).tax
      = UIManager.calculateTax (CartManager.updateSummary w cart).subtotal := by
    simp [CartManager.updateSummary, hui, orZero_eq]
  have htotal : (CartManager.updateSummary w cart).total
      = (CartManager.updateSummary w cart).subtotal + (CartManager.updateSummary w cart).tax := rfl
  refine ⟨?_, ?_, htax, ?_, htotal, ?_⟩
  · simp [CartManager.updateSummary, foldl_add_eq_sum]
  · simp [CartManager.updateSummary, foldl_add_eq_sum]
  · rw [htax]
    rfl
  · rw [htotal, htax]
    unfold UIManager.calculateTax
    ring

/-- Witness for C9: the scenario cart on the cart page gives total 27.125. -/
theorem updateSummary_exact_witness :
    (CartManager.updateSummary scenarioPage scenarioCart).total
      = (CartManager.updateSummary scenarioPage scenarioCart).subtotal * 1.085 :=
  (updateSummary_exact scenarioPage scenarioCart rfl).2.2.2.2.2

/-- C10, as stated, fails: for the scenario cart `ShoppingCart.updateCartTotals` shows
subtotal 25 and total 25, and `handleCheckout` reports 25, whereas subtotal plus 8.5% tax
is 27.125. -/
theorem updateCartTotals_no_tax_counterexample :
    scenarioShop.updateCartTotals.subtotal = 25 ∧
    scenarioShop.updateCartTotals.total = 25 ∧
    scenarioShop.checkoutSummary.2 = 25 ∧
    scenarioShop.updateCartTotals.subtotal + scenarioShop.updateCartTotals.subtotal * 0.085
      = 27.125 ∧
    ¬ (scenarioShop.updateCartTotals.total
        = scenarioShop.updateCartTotals.subtotal
          + scenarioShop.updateCartTotals.subtotal * 0.085) := by
  have hsub : scenarioShop.updateCartTotals.subtotal = 25 := by
    simp [ShoppingCart.updateCartTotals, scenarioShop_cart, scenarioCart]
    norm_num
  have htot : scenarioShop.updateCartTotals.total = 25 := hsub
  have hchk : scenarioShop.checkoutSummary.2 = 25 := hsub
  refine ⟨hsub, htot, hchk, ?_, ?_⟩
  · rw [hsub]
    norm_num
  · rw [htot, hsub]
    norm_num

/-- C10, amended: for every cart, the total of `ShoppingCart.updateCartTotals` and the
total reported by `handleCheckout` equal the subtotal, the exact sum of price times
quantity, with no tax added; it agrees with subtotal times 1.085 only when the subtotal
is zero. -/
theorem updateCartTotals_total_eq_subtotal (s : ShoppingCart) :
    s.updateCartTotals.total = s.updateCartTotals.subtotal ∧
    s.updateCartTotals.subtotal
        = (s.cart.map (fun item => item.price * (item.quantity : ℚ))).sum ∧
    s.checkoutSummary.2 = (s.cart.map (fun item => item.price * (item.quantity : ℚ))).sum ∧
    (s.updateCartTotals.total = s.updateCartTotals.subtotal * 1.085
        ↔ s.updateCartTotals.subtotal = 0) := by
  have htot : s.updateCartTotals.total = s.updateCartTotals.subtotal := rfl
  refine ⟨htot, ?_, ?_, ?_⟩
  · simp [ShoppingCart.updateCartTotals, foldl_add_eq_sum]
  · simp [ShoppingCart.checkoutSummary, foldl_add_eq_sum]
  · rw [htot]
    constructor
    · intro h
      linarith
    · intro h
      rw [h]
      norm_num

/-! ## The scenario of the specification on the cart page -/

theorem roundHalfUpCents_tax : roundHalfUpCents 2.125 = 2.13 := by
  unfold roundHalfUpCents
  have h : ⌊(2.125 : ℚ) * 100 + 1 / 2⌋ = 213 := by
    rw [Int.floor_eq_iff]
    norm_num
  rw [h]
  norm_num

theorem roundHalfUpCents_total : roundHalfUpCents 27.125 = 27.13 := by
  unfold roundHalfUpCents
  have h : ⌊(27.125 : ℚ) * 100 + 1 / 2⌋ = 2713 := by
    rw [Int.floor_eq_iff]
    norm_num
  rw [h]
  norm_num

theorem roundHalfUpCents_subtotal : roundHalfUpCents 25 = 25 := by
  unfold roundHalfUpCents
  have h : ⌊(25 : ℚ) * 100 + 1 / 2⌋ = 2500 := by
    rw [Int.floor_eq_iff]
    norm_num
  rw [h]
  norm_num

/-- C11: for a cart made of product 1 at price 10 with quantity 2 and product 2 at price 5
with quantity 1, the cart page summary (UI manager present) has item count 3, subtotal 25,
tax 2.125 and total 27.125 in exact arithmetic, and the amounts shown for tax and total are
2.13 and 27.13, the round-half-up values at two decimals. -/
theorem scenario_summary (w : Page) (cart : List LineItem) (hui : w.uiManager = true)
    (hcart : cart.map (fun item => (item.id, item.price, item.quantity))
      = [(1, 10, 2), (2, 5, 1)]) :
    (CartManager.updateSummary w cart).itemCount = 3 ∧
    (CartManager.updateSummary w cart).subtotal = 25 ∧
    (CartManager.updateSummary w cart).tax = 2.125 ∧
    (CartManager.updateSummary w cart).total = 27.125 ∧
    roundHalfUpCents (CartManager.updateSummary w cart).tax = 2.13 ∧
    roundHalfUpCents (CartManager.updateSummary w cart).total = 27.13 ∧
    CartManager.summaryAmounts w cart = (25, 2.13, 27.13) := by
  obtain ⟨a, b, rfl⟩ : ∃ a b, cart = [a, b] := by
    have hlen := congrArg List.length hcart
    simp only [List.length_map, List.length_cons, List.length_nil] at hlen
    exact List.length_eq_two.mp hlen
  have h := hcart
  simp only [List.map_cons, List.map_nil, List.cons.injEq, Prod.mk.injEq, and_true] at h
  obtain ⟨⟨ha1, ha2, ha3⟩, hb1, hb2, hb3⟩ := h
  have hcount : (CartManager.updateSummary w [a, b]).itemCount = 3 := by
    simp [CartManager.updateSummary, ha3, hb3]
  have hsub : (CartManager.updateSummary w [a, b]).subtotal = 25 := by
    simp [CartManager.updateSummary, ha2, ha3, hb2, hb3]
    norm_num
  have htax : (CartManager.updateSummary w [a, b]).tax = 2.125 := by
    have : (CartManager.updateSummary w [a, b]).tax
        = UIManager.calculateTax (CartManager.updateSummary w [a, b]).subtotal := by
      simp [CartManager.updateSummary, hui, orZero_eq]
    rw [this, hsub]
    unfold UIManager.calculateTax
    norm_num
  have htotal : (CartManager.updateSummary w [a, b]).total = 27.125 := by
    have : (CartManager.updateSummary w [a, b]).total
        = (CartManager.updateSummary w [a, b]).subtotal
          + (CartManager.updateSummary w [a, b]).tax := rfl
    rw [this, hsub, htax]
    norm_num
  refine ⟨hcount, hsub, htax, htotal, ?_, ?_, ?_⟩
  · rw [htax]
    exact roundHalfUpCents_tax
  · rw [htotal]
    exact roundHalfUpCents_total
  · unfold CartManager.summaryAmounts UIManager.formatCurrency
    simp only [hsub, htax, htotal]
    rw [if_pos (by norm_num), if_pos (by norm_num), if_pos (by norm_num),
      roundHalfUpCents_subtotal, roundHalfUpCents_tax, roundHalfUpCents_total]

/-- Witness for C11: the scenario cart on the scenario page. -/
theorem scenario_summary_witness :
    (CartManager.updateSummary scenarioPage scenarioCart).total = 27.125 ∧
    CartManager.summaryAmounts scenarioPage scenarioCart = (25, 2.13, 27.13) :=
  have h := scenario_summary scenarioPage scenarioCart rfl (by simp [scenarioCart])
  ⟨h.2.2.2.1, h.2.2.2.2.2.2⟩

/-! ## Persisting and reloading the cart -/

theorem lineItem_ofJson_toJson (item : LineItem) :
    LineItem.ofJson? item.toJson = some item := by
  simp [LineItem.ofJson?, LineItem.toJson, Json.field, List.lookup, Json.toInt?, Json.toStr?,
    Json.toRat?]

theorem lineItemsOfJson_map_toJson (cart : List LineItem) :
    lineItemsOfJson? (cart.map LineItem.toJson) = some cart := by
  induction cart with
  | nil => rfl
  | cons item rest ih =>
    simp [lineItemsOfJson?, lineItem_ofJson_toJson, ih]

theorem readStoredCart_stringifyCart (cart : List LineItem) :
    readStoredCart (some (stringifyCart cart)) = some cart := by
  simp [readStoredCart, stringifyCart, Json.truthy, lineItemsOfJson_map_toJson]

/-- C12: what is saved is what is read back. At the level of the stored JSON value,
reading `stringifyCart cart` yields `cart`; `UIManager.getCart` after `UIManager.saveCart
cart` returns `cart`; a `ShoppingCart` constructed on the storage written by either
`saveCart` starts with that list; and with nothing stored all of them yield the empty
list. -/
theorem cart_round_trip (w : Page) (s : ShoppingCart) (cart : List LineItem) :
    readStoredCart (some (stringifyCart cart)) = some cart ∧
    UIManager.getCart (UIManager.saveCart w cart) = cart ∧
    (ShoppingCart.new (UIManager.saveCart w cart).storedCart).cart = cart ∧
    (ShoppingCart.new s.saveCart.storedCart).cart = s.cart ∧
    readStoredCart none = some [] ∧
    UIManager.getCart { w with storedCart := none } = [] ∧
    (ShoppingCart.new none).cart = [] := by
  refine ⟨readStoredCart_stringifyCart cart, rfl, ?_, ?_, rfl, rfl, ?_⟩
  · simp [ShoppingCart.new, UIManager.saveCart, parseCart]
  · simp [ShoppingCart.new, parseCart]
  · simp [ShoppingCart.new, parseCart]

/-- Every event that changes the in-memory cart writes the new cart to storage. -/
theorem step_saves_changed_cart (s : ShoppingCart) (e : CartEvent)
    (h : (s.step e).cart ≠ s.cart) : (s.step e).storedCart = some (s.step e).cart := by
  cases e with
  | add productId =>
    have hc := addToCart_cart s productId
    have hs := addToCart_storedCart s productId
    change (s.addToCart productId).cart ≠ s.cart at h
    show (s.addToCart productId).storedCart = some (s.addToCart productId).cart
    cases hp : s.products.find? (fun p => p.id == productId) with
    | none =>
      rw [hp] at hc
      exact absurd hc h
    | some product =>
      rw [hp] at hc hs
      rw [hs, hc]
  | remove productId =>
    show (s.removeFromCart productId).storedCart = some (s.removeFromCart productId).cart
    rw [removeFromCart_storedCart, removeFromCart_cart]
  | update productId q =>
    have hc := updateQuantity_cart s productId q
    have hs := updateQuantity_storedCart s productId q
    change (s.updateQuantity productId q).cart ≠ s.cart at h
    show (s.updateQuantity productId q).storedCart = some (s.updateQuantity productId q).cart
    by_cases hq : q ≤ 0
    · rw [if_pos hq] at hc hs
      rw [hs, hc]
    · rw [if_neg hq] at hc hs
      cases hf : s.cart.find? (fun item => item.id == productId) with
      | none =>
        rw [hc] at h
        unfold setQuantity at h
        exact absurd (mapFirst_of_find?_none _ _ _ hf) h
      | some item =>
        rw [hf] at hs
        rw [hs, hc]
  | checkout =>
    change s.handleCheckout.cart ≠ s.cart at h
    unfold ShoppingCart.handleCheckout at h
    split at h <;> exact absurd rfl h
  | checkoutTimerFires =>
    change s.checkoutTimer.cart ≠ s.cart at h
    show s.checkoutTimer.storedCart = some s.checkoutTimer.cart
    unfold ShoppingCart.checkoutTimer at h ⊢
    split
    · rename_i h0
      rw [if_pos h0] at h
      exact absurd rfl h
    · simp

/-- C13: in every state reached from the constructor by any sequence of adds, removes,
quantity updates, checkouts and checkout completions, the value stored under the key
`'cart'` decodes to the in-memory cart; and every further event that changes the
in-memory cart leaves the new cart in storage. -/
theorem storedCart_mirrors_cart (stored : Option (List LineItem)) (events : List CartEvent)
    (e : CartEvent) :
    ((ShoppingCart.new stored).run events).persistedCart
        = ((ShoppingCart.new stored).run events).cart ∧
    ((((ShoppingCart.new stored).run events).step e).cart
        ≠ ((ShoppingCart.new stored).run events).cart →
      (((ShoppingCart.new stored).run events).step e).storedCart
        = some (((ShoppingCart.new stored).run events).step e).cart) :=
  ⟨persistedCart_run _ events (persistedCart_new stored),
   step_saves_changed_cart _ e⟩

/-- Witness for C13: the scenario cart, one removal, and then an add that changes the
cart. -/
theorem storedCart_mirrors_cart_witness :
    (((ShoppingCart.new (some scenarioCart)).run [CartEvent.remove 1]).step
        (CartEvent.add 3)).storedCart
      = some (((ShoppingCart.new (some scenarioCart)).run [CartEvent.remove 1]).step
        (CartEvent.add 3)).cart :=
  (storedCart_mirrors_cart (some scenarioCart) [CartEvent.remove 1] (CartEvent.add 3)).2
    (by decide)

/-! ## Checkout -/

@[simp] theorem updateCartUI_pendingCheckouts (s : ShoppingCart) :
    (ShoppingCart.updateCartUI s).pendingCheckouts = s.pendingCheckouts := by
  unfold ShoppingCart.updateCartUI ShoppingCart.renderCartItems
  split <;> rfl

@[simp] theorem saveCart_pendingCheckouts (s : ShoppingCart) :
    (ShoppingCart.saveCart s).pendingCheckouts = s.pendingCheckouts := rfl

/-- No event other than the firing of a checkout timer lowers the number of pending
checkouts. -/
theorem pendingCheckouts_step (s : ShoppingCart) (e : CartEvent)
    (he : e ≠ CartEvent.checkoutTimerFires) :
    s.pendingCheckouts ≤ (s.step e).pendingCheckouts := by
  cases e with
  | add productId =>
    show s.pendingCheckouts ≤ (s.addToCart productId).pendingCheckouts
    unfold ShoppingCart.addToCart
    cases s.products.find? (fun p => p.id == productId) <;> simp
  | remove productId =>
    show s.pendingCheckouts ≤ (s.removeFromCart productId).pendingCheckouts
    simp [ShoppingCart.removeFromCart]
  | update productId q =>
    show s.pendingCheckouts ≤ (s.updateQuantity productId q).pendingCheckouts
    unfold ShoppingCart.updateQuantity
    split
    · simp [ShoppingCart.removeFromCart]
    · cases s.cart.find? (fun item => item.id == productId) <;> simp
  | checkout =>
    show s.pendingCheckouts ≤ s.handleCheckout.pendingCheckouts
    unfold ShoppingCart.handleCheckout
    split <;> simp
  | checkoutTimerFires => exact absurd rfl he

theorem pendingCheckouts_run (s : ShoppingCart) (events : List CartEvent)
    (h : CartEvent.checkoutTimerFires ∉ events) :
    s.pendingCheckouts ≤ (s.run events).pendingCheckouts := by
  induction events generalizing s with
  | nil => exact le_refl _
  | cons e es ih =>
    have he : e ≠ CartEvent.checkoutTimerFires := by
      intro heq
      exact h (heq ▸ List.mem_cons_self _ _)
    have hes : CartEvent.checkoutTimerFires ∉ es := fun hm => h (List.mem_cons_of_mem _ hm)
    exact le_trans (pendingCheckouts_step s e he) (ih (s.step e) hes)

/-- A checkout timer that fires while a checkout is pending leaves the empty cart in
memory and in storage. -/
theorem checkoutTimer_clears (s : ShoppingCart) (h : 0 < s.pendingCheckouts) :
    s.checkoutTimer.cart = [] ∧ s.checkoutTimer.persistedCart = [] := by
  unfold ShoppingCart.checkoutTimer
  rw [if_neg (by omega)]
  simp [ShoppingCart.persistedCart, parseCart]

theorem cartPage_step_uiManager (c : CartPage) (e : CartPageEvent) :
    (c.step e).page.uiManager = c.page.uiManager := by
  cases e with
  | updateQuantity itemId change =>
    show (CartManager.updateQuantity c.page itemId change).uiManager = c.page.uiManager
    rw [cartManager_updateQuantity_eq]
    cases c.page.cart.find? (fun item => item.id == itemId) with
    | none => rfl
    | some item =>
      dsimp only
      unfold CartManager.removeItem UIManager.saveCart
      split <;> split <;> rfl
  | removeItem itemId =>
    show (CartManager.removeItem c.page itemId).uiManager = c.page.uiManager
    unfold CartManager.removeItem UIManager.saveCart
    dsimp only
    split <;> rfl
  | checkout =>
    show (CartManager.handleCheckout c).page.uiManager = c.page.uiManager
    unfold CartManager.handleCheckout
    split <;> rfl

theorem cartPage_step_pending (c : CartPage) (e : CartPageEvent) :
    c.pendingCheckouts ≤ (c.step e).pendingCheckouts := by
  cases e with
  | updateQuantity itemId change => exact le_refl _
  | removeItem itemId => exact le_refl _
  | checkout =>
    show c.pendingCheckouts ≤ (CartManager.handleCheckout c).pendingCheckouts
    unfold CartManager.handleCheckout
    split <;> simp

theorem cartPage_run_invariant (c : CartPage) (events : List CartPageEvent) :
    (c.run events).page.uiManager = c.page.uiManager ∧
    c.pendingCheckouts ≤ (c.run events).pendingCheckouts := by
  induction events generalizing c with
  | nil => exact ⟨rfl, le_refl _⟩
  | cons e es ih =>
    obtain ⟨h1, h2⟩ := ih (c.step e)
    exact ⟨h1.trans (cartPage_step_uiManager c e),
      le_trans (cartPage_step_pending c e) h2⟩

theorem uiManager_of_cart_ne_nil (w : Page) (h : w.cart ≠ []) : w.uiManager = true := by
  by_contra hui
  exact h (by simp [Page.cart, hui])

/-- C20: a checkout started on a non-empty cart, once its timer fires, leaves the empty
list in memory and in storage (`ShoppingCart`) and in storage (`CartManager`), whatever
other events happen in between; on the empty cart `handleCheckout` returns the state it
was given. -/
theorem checkout_clears_cart (s : ShoppingCart) (events : List CartEvent) (c : CartPage)
    (pageEvents : List CartPageEvent) (hnofire : CartEvent.checkoutTimerFires ∉ events) :
    (s.cart ≠ [] →
      ((s.handleCheckout.run events).checkoutTimer).cart = [] ∧
      ((s.handleCheckout.run events).checkoutTimer).persistedCart = []) ∧
    (s.cart = [] → s.handleCheckout = s) ∧
    (c.page.cart ≠ [] →
      UIManager.getCart
        (CartManager.checkoutTimer ((CartManager.handleCheckout c).run pageEvents)).page = []) ∧
    (c.page.cart = [] → CartManager.handleCheckout c = c) := by
  refine ⟨?_, ?_, ?_, ?_⟩
  · intro hne
    apply checkoutTimer_clears
    have hpos : 0 < s.handleCheckout.pendingCheckouts := by
      unfold ShoppingCart.handleCheckout
      rw [if_neg (by simpa using hne)]
      simp
    exact lt_of_lt_of_le hpos (pendingCheckouts_run _ events hnofire)
  · intro hnil
    unfold ShoppingCart.handleCheckout
    rw [if_pos (by simp [hnil])]
  · intro hne
    have hui := uiManager_of_cart_ne_nil c.page hne
    have hstart : (CartManager.handleCheckout c).pendingCheckouts = c.pendingCheckouts + 1 ∧
        (CartManager.handleCheckout c).page = c.page := by
      unfold CartManager.handleCheckout
      rw [if_neg (by simpa using hne)]
      exact ⟨rfl, rfl⟩
    obtain ⟨hu, hp⟩ := cartPage_run_invariant (CartManager.handleCheckout c) pageEvents
    rw [hstart.2, hui] at hu
    rw [hstart.1] at hp
    unfold CartManager.checkoutTimer
    rw [if_neg (by omega)]
    simp [hu, UIManager.saveCart, UIManager.getCart, parseCart]
  · intro hnil
    unfold CartManager.handleCheckout
    rw [if_pos (by simp [hnil])]

/-- Witness for C20: checkout of the scenario cart with an add and a quantity change
before the timer fires. -/
theorem checkout_clears_cart_witness :
    ((scenarioShop.handleCheckout.run [CartEvent.add 3]).checkoutTimer).cart = [] ∧
    ((scenarioShop.handleCheckout.run [CartEvent.add 3]).checkoutTimer).persistedCart = [] ∧
    UIManager.getCart
      (CartManager.checkoutTimer
        ((CartManager.handleCheckout { page := scenarioPage, pendingCheckouts := 0 }).run
          [CartPageEvent.updateQuantity 2 4])).page = [] :=
  have h := checkout_clears_cart scenarioShop [CartEvent.add 3]
    { page := scenarioPage, pendingCheckouts := 0 } [CartPageEvent.updateQuantity 2 4]
    (by decide)
  ⟨(h.1 (by decide)).1, (h.1 (by decide)).2, h.2.2.1 (by decide)⟩

/-! ## The service: error handling and the session -/

theorem includes_http_401 (statusText : String) :
    includes ("HTTP " ++ toString (401 : Nat) ++ ": " ++ statusText) "401" = true := by
  unfold includes
  rw [decide_eq_true_iff]
  refine ⟨"HTTP ".toList, (": " ++ statusText).toList, ?_⟩
  have h401 : toString (401 : Nat) = "401" := by decide
  rw [h401]
  simp [String.toList, String.data_append]

theorem handleError_unauthorized (api : APIService) (error : JsError)
    (hname : error.name ≠ "AbortError") (hmsg : includes error.message "401" = true) :
    api.handleError error = (api.clearAuth, JsError.new "Authentication required") := by
  unfold APIService.handleError
  rw [if_neg hname, if_pos hmsg]

/-- The service holds no token, in memory or in storage. -/
theorem handleError_keeps_signed_out (api : APIService) (error : JsError)
    (h : api.token = none ∧ api.auth_token = none) :
    (api.handleError error).1.token = none ∧ (api.handleError error).1.auth_token = none := by
  unfold APIService.handleError
  split
  · exact h
  · split
    · exact ⟨rfl, rfl⟩
    · exact h

theorem request_keeps_signed_out {β : Type} (api : APIService) (endpoint : String)
    (options : RequestOptions) (outcome : FetchOutcome β)
    (h : api.token = none ∧ api.auth_token = none) :
    (api.request endpoint options outcome).api.token = none ∧
    (api.request endpoint options outcome).api.auth_token = none := by
  cases outcome with
  | ok body => exact h
  | notOk status statusText => exact handleError_keeps_signed_out api _ h
  | rejected error => exact handleError_keeps_signed_out api _ h

theorem step_keeps_signed_out (api : APIService) (e : APIEvent)
    (he : e.isNewLogin = false) (h : api.token = none ∧ api.auth_token = none) :
    (api.step e).token = none ∧ (api.step e).auth_token = none := by
  cases e with
  | request endpoint options outcome => exact request_keeps_signed_out api _ _ outcome h
  | login credentials outcome =>
    show (api.login credentials outcome).api.token = none ∧
      (api.login credentials outcome).api.auth_token = none
    have hreq := request_keeps_signed_out api API_CONFIG.ENDPOINTS.LOGIN
      { method := some "POST", body := some credentials, headers := none } outcome h
    cases outcome with
    | ok response =>
      cases htok : response.access_token with
      | none =>
        simp only [APIService.login, APIService.request, htok]
        exact h
      | some token =>
        have hempty : token = "" := by
          simpa [APIEvent.isNewLogin, htok] using he
        simp only [APIService.login, APIService.request, htok, hempty]
        exact h
    | notOk status statusText =>
      simp only [APIService.login, APIService.request] at hreq ⊢
      exact hreq
    | rejected error =>
      simp only [APIService.login, APIService.request] at hreq ⊢
      exact hreq
  | register userData outcome => exact request_keeps_signed_out api _ _ outcome h
  | logout outcome => exact ⟨rfl, rfl⟩
  | clearAuth => exact ⟨rfl, rfl⟩
  | reload => exact ⟨h.2, h.2⟩

theorem run_keeps_signed_out (api : APIService) (events : List APIEvent)
    (he : ∀ e ∈ events, e.isNewLogin = false) (h : api.token = none ∧ api.auth_token = none) :
    (api.run events).token = none ∧ (api.run events).auth_token = none := by
  induction events generalizing api with
  | nil => exact h
  | cons e es ih =>
    exact ih (api.step e) (fun x hx => he x (List.mem_cons_of_mem _ hx))
      (step_keeps_signed_out api e (he e (List.mem_cons_self _ _)) h)

theorem isAuthenticated_of_token_none (api : APIService) (h : api.token = none) :
    api.isAuthenticated = false := by
  unfold APIService.isAuthenticated
  rw [h]

/-- C14: a request that ends with HTTP status 401 leaves the in-memory token `null`, removes
`auth_token` and `user_data` from storage and throws the error `Authentication required`;
after it `isAuthenticated()` is false, and stays false through every sequence of requests,
registrations, logouts, failed or token-less logins and reloads, that is, until a login
that returns an access token. -/
theorem unauthorized_clears_session (api : APIService) (endpoint : String)
    (options : RequestOptions) (statusText : String) (events : List APIEvent)
    (hnologin : ∀ e ∈ events, e.isNewLogin = false) :
    (api.request endpoint options (FetchOutcome.notOk 401 statusText : FetchOutcome Json)).api.token
        = none ∧
    (api.request endpoint options (FetchOutcome.notOk 401 statusText : FetchOutcome Json)).api.auth_token
        = none ∧
    (api.request endpoint options (FetchOutcome.notOk 401 statusText : FetchOutcome Json)).api.user_data
        = none ∧
    (api.request endpoint options (FetchOutcome.notOk 401 statusText : FetchOutcome Json)).result
        = Except.error (JsError.new "Authentication required") ∧
    (api.request endpoint options
        (FetchOutcome.notOk 401 statusText : FetchOutcome Json)).api.isAuthenticated = false ∧
    ((api.request endpoint options
        (FetchOutcome.notOk 401 statusText : FetchOutcome Json)).api.run events).isAuthenticated
        = false := by
  have hhandle := handleError_unauthorized api
    (JsError.new ("HTTP " ++ toString (401 : Nat) ++ ": " ++ statusText))
    (by simp [JsError.new]) (includes_http_401 statusText)
  have hapi : (api.request endpoint options
      (FetchOutcome.notOk 401 statusText : FetchOutcome Json)).api = api.clearAuth := by
    simp only [APIService.request, hhandle]
  have hres : (api.request endpoint options
      (FetchOutcome.notOk 401 statusText : FetchOutcome Json)).result
      = Except.error (JsError.new "Authentication required") := by
    simp only [APIService.request, hhandle]
  rw [hapi]
  refine ⟨rfl, rfl, rfl, hres, rfl, ?_⟩
  exact isAuthenticated_of_token_none _
    (run_keeps_signed_out api.clearAuth events hnologin ⟨rfl, rfl⟩).1

/-- Witness for C14: the scenario service, a 401 on the cart endpoint, then a failed
login and a reload. -/
theorem unauthorized_clears_session_witness :
    (((scenarioService.request "/cart" RequestOptions.empty
        (FetchOutcome.notOk 401 "Unauthorized" : FetchOutcome Json)).api.run
          [APIEvent.login Json.null (FetchOutcome.notOk 403 "Forbidden"),
           APIEvent.reload]).isAuthenticated) = false :=
  (unauthorized_clears_session scenarioService "/cart" RequestOptions.empty "Unauthorized"
    [APIEvent.login Json.null (FetchOutcome.notOk 403 "Forbidden"), APIEvent.reload]
    (by
      intro e he
      simp only [List.mem_cons, List.mem_singleton, List.not_mem_nil, or_false] at he
      rcases he with rfl | rfl <;> rfl)).2.2.2.2.2

theorem step_timeout (api : APIService) (e : APIEvent) : (api.step e).timeout = api.timeout ∨
    (api.step e).timeout = API_CONFIG.TIMEOUT := by
  have hhandle : ∀ (a : APIService) (err : JsError), (a.handleError err).1.timeout = a.timeout := by
    intro a err
    unfold APIService.handleError
    split
    · rfl
    · split <;> rfl
  have hreq : ∀ {β : Type} (a : APIService) (ep : String) (o : RequestOptions)
      (out : FetchOutcome β), (a.request ep o out).api.timeout = a.timeout := by
    intro β a ep o out
    cases out with
    | ok body => rfl
    | notOk status statusText => exact hhandle a _
    | rejected error => exact hhandle a _
  cases e with
  | request endpoint options outcome => exact Or.inl (hreq api _ _ outcome)
  | login credentials outcome =>
    left
    show (api.login credentials outcome).api.timeout = api.timeout
    have h := hreq api API_CONFIG.ENDPOINTS.LOGIN
      { method := some "POST", body := some credentials, headers := none } outcome
    unfold APIService.login
    dsimp only
    split
    · split
      · split
        · exact h
        · exact h
      · exact h
    · exact h
  | register userData outcome => exact Or.inl (hreq api _ _ outcome)
  | logout outcome => exact Or.inl (hreq api _ _ outcome)
  | clearAuth => exact Or.inl rfl
  | reload => exact Or.inr rfl

theorem run_timeout (auth_token : Option String) (user_data : Option StoredProfile)
    (events : List APIEvent) :
    ((APIService.new auth_token user_data).run events).timeout = API_CONFIG.TIMEOUT := by
  have hgen : ∀ (api : APIService), api.timeout = API_CONFIG.TIMEOUT →
      (api.run events).timeout = API_CONFIG.TIMEOUT := by
    induction events with
    | nil => exact fun api h => h
    | cons e es ih =>
      intro api h
      apply ih (api.step e)
      rcases step_timeout api e with h' | h'
      · rw [h', h]
      · exact h'
  exact hgen _ rfl

/-- C16: an error named `AbortError` makes `handleError` return the error `Request timeout`
and leave the service (token, stored credential and profile) as it was, whatever the
message of the error says; and in every state reached from the constructor the abort
timer of a request is set to the configured 10000 ms. -/
theorem abort_is_request_timeout (api : APIService) (error : JsError) (endpoint : String)
    (options : RequestOptions) (auth_token : Option String)
    (user_data : Option StoredProfile) (events : List APIEvent)
    (hname : error.name = "AbortError") :
    api.handleError error = (api, JsError.new "Request timeout") ∧
    (api.request endpoint options (FetchOutcome.rejected error : FetchOutcome Json)).api = api ∧
    (api.request endpoint options (FetchOutcome.rejected error : FetchOutcome Json)).result
        = Except.error (JsError.new "Request timeout") ∧
    API_CONFIG.TIMEOUT = 10000 ∧
    (((APIService.new auth_token user_data).run events).fetchCall endpoint options).abortAfter
        = 10000 := by
  have hhandle : api.handleError error = (api, JsError.new "Request timeout") := by
    unfold APIService.handleError
    rw [if_pos hname]
  refine ⟨hhandle, ?_, ?_, rfl, ?_⟩
  · simp only [APIService.request, hhandle]
  · simp only [APIService.request, hhandle]
  · show ((APIService.new auth_token user_data).run events).timeout = 10000
    rw [run_timeout]
    rfl

/-- Witness for C16: an abort whose message contains the text 401, on the scenario
service. -/
theorem abort_is_request_timeout_witness :
    scenarioService.handleError { name := "AbortError", message := "HTTP 401" }
      = (scenarioService, JsError.new "Request timeout") :=
  (abort_is_request_timeout scenarioService { name := "AbortError", message := "HTTP 401" }
    "/cart" RequestOptions.empty none none [] rfl).1

/-! ## The headers of a request -/

/-- Without a `headers` key in `options`, the request carries the two default headers, and
the `Authorization` header exactly when a token is held. -/
theorem fetchCall_headers_default (api : APIService) (endpoint : String)
    (options : RequestOptions) (h : options.headers = none) :
    (api.fetchCall endpoint options).headers =
      match api.token with
      | some token =>
        if token ≠ "" then
          [("Content-Type", "application/json"), ("Accept", "application/json"),
            ("Authorization", "Bearer " ++ token)]
        else [("Content-Type", "application/json"), ("Accept", "application/json")]
      | none => [("Content-Type", "application/json"), ("Accept", "application/json")] := by
  unfold APIService.fetchCall APIService.mergedHeaders
  simp only [h]
  cases api.token with
  | none => rfl
  | some token =>
    by_cases ht : token = ""
    · simp [ht, spread, API_CONFIG.HEADERS]
    · simp [ht, spread, setProperty, API_CONFIG.HEADERS]

/-- C15 on a failing input: the scenario service holds the token `abc`, and a request whose
options carry `headers: {'X-Trace': '1'}` is issued with that object alone as headers,
without `Content-Type`, `Accept` and `Authorization`, although the `headers` literal of
`config` had merged all of them. -/
theorem fetchCall_headers_replaced :
    scenarioService.isAuthenticated = true ∧
    scenarioService.mergedHeaders scenarioOptions
      = [("Content-Type", "application/json"), ("Accept", "application/json"),
         ("Authorization", "Bearer abc"), ("X-Trace", "1")] ∧
    (scenarioService.fetchCall "/cart" scenarioOptions).headers = [("X-Trace", "1")] ∧
    getProperty (scenarioService.fetchCall "/cart" scenarioOptions).headers "Content-Type"
      = none ∧
    getProperty (scenarioService.fetchCall "/cart" scenarioOptions).headers "Accept" = none ∧
    getProperty (scenarioService.fetchCall "/cart" scenarioOptions).headers "Authorization"
      = none := by
  refine ⟨by decide, by decide, rfl, by decide, by decide, by decide⟩

/-! ## Adding to the cart with and without a session -/

theorem request_fetch {β : Type} (api : APIService) (endpoint : String)
    (options : RequestOptions) (outcome : FetchOutcome β) :
    (api.request endpoint options outcome).fetch = api.fetchCall endpoint options := by
  cases outcome <;> rfl

/-- C18: for a product of the loaded list, `ProductManager.addToCart` with an active
session issues the `POST /cart/add` request for that product with quantity 1 and leaves
the page, hence the locally persisted cart, as it was, whatever the outcomes of its
requests; without a session it issues no request, leaves the service as it was, and the
page is the one produced by the local merge-by-id. -/
theorem addToCart_session_gate (products : List Product) (b : Browser) (productId : Int)
    (product : Product) (recent add : FetchOutcome Json)
    (hfind : products.find? (fun p => p.id == productId) = some product) :
    (b.api.isAuthenticated = true →
      (ProductManager.addToCart products b productId recent add).page = b.page ∧
      UIManager.getCart (ProductManager.addToCart products b productId recent add).page
        = UIManager.getCart b.page ∧
      (ProductManager.addToCart products b productId recent add).fetches
        = b.fetches ++
          [b.api.fetchCall API_CONFIG.ENDPOINTS.RECENTLY_VIEWED
            { method := some "POST"
              body := some (.obj [("product_id", .num (productId : ℚ))])
              headers := none },
           b.api.fetchCall API_CONFIG.ENDPOINTS.ADD_TO_CART
            { method := some "POST"
              body := some (.obj [("product_id", .num (productId : ℚ)),
                                  ("quantity", .num ((1 : Int) : ℚ))])
              headers := none }]) ∧
    (b.api.isAuthenticated = false →
      (ProductManager.addToCart products b productId recent add).fetches = b.fetches ∧
      (ProductManager.addToCart products b productId recent add).api = b.api ∧
      (ProductManager.addToCart products b productId recent add).page
        = ProductManager.addToCartLocal products b.page productId ∧
      (b.page.uiManager = true →
        UIManager.getCart (ProductManager.addToCart products b productId recent add).page
          = mergeInto product productId (UIManager.getCart b.page))) := by
  constructor
  · intro hauth
    have hpage : (ProductManager.addToCart products b productId recent add).page = b.page := by
      simp only [ProductManager.addToCart, hfind, hauth, if_true]
    refine ⟨hpage, by rw [hpage], ?_⟩
    simp only [ProductManager.addToCart, hfind, hauth, if_true]
    unfold APIService.addToRecentlyViewed APIService.addToCart
    rw [request_fetch, request_fetch]
  · intro hauth
    have hlocal : (ProductManager.addToCart products b productId recent add).page
        = ProductManager.addToCartLocal products b.page productId := by
      simp only [ProductManager.addToCart, ProductManager.addToCartLocal, hfind, hauth]
      rfl
    refine ⟨?_, ?_, hlocal, ?_⟩
    · simp only [ProductManager.addToCart, hfind, hauth]
      rfl
    · simp only [ProductManager.addToCart, hfind, hauth]
      rfl
    · intro hui
      rw [hlocal, addToCartLocal_eq, hfind]
      simp only [hui, if_true]
      rw [page_cart_of_uiManager b.page hui]
      rfl

/-- Witness for C18: product 1 on the scenario browser, whose session is active, with a 401
on the cart request; and the same page without a session. -/
theorem addToCart_session_gate_witness :
    UIManager.getCart (ProductManager.addToCart initializeProducts scenarioBrowser 1
        (FetchOutcome.ok Json.null) (FetchOutcome.notOk 401 "Unauthorized")).page
      = UIManager.getCart scenarioBrowser.page ∧
    (ProductManager.addToCart initializeProducts
        { scenarioBrowser with api := APIService.new none none } 1
        (FetchOutcome.ok Json.null) (FetchOutcome.ok Json.null)).fetches = [] :=
  ⟨((addToCart_session_gate initializeProducts scenarioBrowser 1 _
      (FetchOutcome.ok Json.null) (FetchOutcome.notOk 401 "Unauthorized") rfl).1
      (by decide)).2.1,
   ((addToCart_session_gate initializeProducts
      { scenarioBrowser with api := APIService.new none none } 1 _
      (FetchOutcome.ok Json.null) (FetchOutcome.ok Json.null) rfl).2 (by decide)).1⟩

/-! ## The cart page and the session -/

/-- The cart page never issues a request and never touches the service. -/
theorem cartPage_no_fetch (b : Browser) (itemId change : Int) :
    (b.cartUpdateQuantity itemId change).fetches = b.fetches ∧
    (b.cartUpdateQuantity itemId change).api = b.api ∧
    (b.cartRemoveItem itemId).fetches = b.fetches ∧
    (b.cartRemoveItem itemId).api = b.api :=
  ⟨rfl, rfl, rfl, rfl⟩

/-- C19 on a failing input: with an active session and the scenario cart in storage,
`CartManager.updateQuantity(1, 1)` and `CartManager.removeItem(1)` issue no request and
rewrite the locally persisted cart. -/
theorem cartPage_ignores_session :
    scenarioBrowser.api.isAuthenticated = true ∧
    (UIManager.getCart scenarioBrowser.page).map (fun item => (item.id, item.quantity))
      = [(1, 2), (2, 1)] ∧
    (scenarioBrowser.cartUpdateQuantity 1 1).fetches = [] ∧
    (UIManager.getCart (scenarioBrowser.cartUpdateQuantity 1 1).page).map
        (fun item => (item.id, item.quantity)) = [(1, 3), (2, 1)] ∧
    (scenarioBrowser.cartRemoveItem 1).fetches = [] ∧
    (UIManager.getCart (scenarioBrowser.cartRemoveItem 1).page).map
        (fun item => (item.id, item.quantity)) = [(2, 1)] := by
  refine ⟨by decide, by decide, rfl, by decide, rfl, by decide⟩

/-! ## The debounced search -/

theorem foldl_timerCallback_fields (l : List Timer) (s : SearchBox) :
    (l.foldl (fun acc timer => acc.timerCallback timer.due) s).searchTimeout = s.searchTimeout ∧
    (l.foldl (fun acc timer => acc.timerCallback timer.due) s).nextTimerId = s.nextTimerId ∧
    (l.foldl (fun acc timer => acc.timerCallback timer.due) s).inputValue = s.inputValue := by
  induction l generalizing s with
  | nil => exact ⟨rfl, rfl, rfl⟩
  | cons x xs ih =>
    obtain ⟨h1, h2, h3⟩ := ih (s.timerCallback x.due)
    exact ⟨h1, h2, h3⟩

theorem advance_timers (s : SearchBox) (time : Nat) :
    (s.advance time).timers = s.timers.filter (fun timer => ¬ timer.due ≤ time) := rfl

theorem advance_now (s : SearchBox) (time : Nat) : (s.advance time).now = max s.now time := rfl

theorem advance_searchTimeout (s : SearchBox) (time : Nat) :
    (s.advance time).searchTimeout = s.searchTimeout :=
  (foldl_timerCallback_fields _ s).1

theorem advance_nextTimerId (s : SearchBox) (time : Nat) :
    (s.advance time).nextTimerId = s.nextTimerId :=
  (foldl_timerCallback_fields _ s).2.1

/-- While no pending timer is due, the passing of time only moves the clock. -/
theorem advance_of_not_due (s : SearchBox) (time : Nat)
    (h : ∀ timer ∈ s.timers, time < timer.due) :
    s.advance time = { s with now := max s.now time } := by
  have hdue : s.timers.filter (fun timer => timer.due ≤ time) = [] := by
    rw [List.filter_eq_nil_iff]
    intro timer hmem
    have := h timer hmem
    simp only [decide_eq_true_eq]
    omega
  have hkeep : s.timers.filter (fun timer => ¬ timer.due ≤ time) = s.timers := by
    rw [List.filter_eq_self]
    intro timer hmem
    have := h timer hmem
    simp only [decide_eq_true_eq]
    omega
  unfold SearchBox.advance
  simp only [hdue, hkeep, List.insertionSort, List.foldl_nil]

theorem singleTimer_advance (s : SearchBox) (time : Nat) (h : s.SingleTimer) :
    (s.advance time).SingleTimer := by
  unfold SearchBox.SingleTimer at *
  rw [advance_timers, advance_searchTimeout]
  rcases h with h | ⟨id, due, h, hid⟩
  · left
    rw [h]
    rfl
  · rw [h]
    by_cases hd : due ≤ time
    · left
      simp [hd]
    · right
      refine ⟨id, due, ?_, hid⟩
      simp only [List.filter_cons, List.filter_nil, hd, not_false_eq_true, decide_True, if_true]

theorem clearTimeout_of_singleTimer (s : SearchBox) (h : s.SingleTimer) :
    s.clearTimeout s.searchTimeout = { s with timers := [] } := by
  unfold SearchBox.SingleTimer at h
  rcases h with h | ⟨id, due, h, hid⟩
  · have hs : s = { s with timers := [] } := by
      obtain ⟨a, b, c, d, e, f, g, i⟩ := s
      simp only at h
      subst h
      rfl
    unfold SearchBox.clearTimeout
    split
    · simp [h]
    · exact hs
  · unfold SearchBox.clearTimeout
    rw [hid]
    simp [h]

/-- An input event leaves exactly one pending timer, due 300 ms after the event. -/
theorem input_of_singleTimer (s : SearchBox) (time : Nat) (value : String)
    (h : s.SingleTimer) :
    s.input time value =
      { s.advance time with
        inputValue := value
        timers := [{ id := s.nextTimerId, due := max s.now time + 300 }]
        searchTimeout := some s.nextTimerId
        nextTimerId := s.nextTimerId + 1 } := by
  have hadv := singleTimer_advance s time h
  have hsingle : SearchBox.SingleTimer { s.advance time with inputValue := value } := hadv
  unfold SearchBox.input
  simp only
  rw [clearTimeout_of_singleTimer _ hsingle]
  simp only [List.nil_append, advance_nextTimerId, advance_now]

theorem singleTimer_input (s : SearchBox) (time : Nat) (value : String) (h : s.SingleTimer) :
    (s.input time value).SingleTimer := by
  rw [input_of_singleTimer s time value h]
  exact Or.inr ⟨_, _, rfl, rfl⟩

theorem singleTimer_run (s : SearchBox) (events : List SearchEvent) (h : s.SingleTimer) :
    (s.run events).SingleTimer := by
  induction events generalizing s with
  | nil => exact h
  | cons e es ih =>
    apply ih
    cases e with
    | input time value => exact singleTimer_input s time value h
    | advance time => exact singleTimer_advance s time h

theorem armed_input (s : SearchBox) (time : Nat) (value : String) (h : s.SingleTimer)
    (hquiet : ∀ timer ∈ s.timers, time < timer.due) (hnow : s.now ≤ time) :
    (s.input time value).Armed time value ∧ (s.input time value).loads = s.loads := by
  rw [input_of_singleTimer s time value h, advance_of_not_due s time hquiet]
  have hmax : max s.now time = time := max_eq_right hnow
  refine ⟨⟨⟨s.nextTimerId, ?_, rfl⟩, hmax, rfl⟩, rfl⟩
  simp only [hmax]

/-- Keystrokes that are less than 300 ms apart keep re-arming the timer and issue
nothing. -/
theorem armed_type (keystrokes : List (Nat × String)) :
    ∀ (s : SearchBox) (key : Nat × String), s.Armed key.1 key.2 →
      List.Chain (fun a b => a.1 ≤ b.1 ∧ b.1 < a.1 + 300) key keystrokes →
      (s.type keystrokes).Armed
          ((key :: keystrokes).getLast (List.cons_ne_nil _ _)).1
          ((key :: keystrokes).getLast (List.cons_ne_nil _ _)).2 ∧
        (s.type keystrokes).loads = s.loads := by
  induction keystrokes with
  | nil =>
    intro s key h _
    exact ⟨h, rfl⟩
  | cons k ks ih =>
    intro s key h hchain
    rw [List.chain_cons] at hchain
    obtain ⟨⟨hle, hlt⟩, hrest⟩ := hchain
    obtain ⟨⟨id, htimers, hid⟩, hnow, _⟩ := h
    have hsingle : s.SingleTimer := Or.inr ⟨id, _, htimers, hid⟩
    have hquiet : ∀ timer ∈ s.timers, k.1 < timer.due := by
      intro timer hmem
      rw [htimers, List.mem_singleton] at hmem
      rw [hmem]
      exact hlt
    have hstep := armed_input s k.1 k.2 hsingle hquiet (by rw [hnow]; exact hle)
    obtain ⟨harmed, hloads⟩ := ih (s.input k.1 k.2) k hstep.1 hrest
    have hlast : (key :: k :: ks).getLast (List.cons_ne_nil _ _)
        = (k :: ks).getLast (List.cons_ne_nil _ _) := List.getLast_cons (List.cons_ne_nil _ _)
    rw [hlast]
    exact ⟨harmed, hloads.trans hstep.2⟩

/-- Once the quiet period is over, the armed timer fires: one `loadProducts`, at the due
time, with the value of the input element and page 1. -/
theorem armed_advance (s : SearchBox) (time later : Nat) (value : String)
    (h : s.Armed time value) (hlater : time + 300 ≤ later) :
    (s.advance later).loads
        = s.loads ++ [{ time := time + 300, searchQuery := value, currentPage := 1 }] ∧
    (s.advance later).searchQuery = value ∧
    (s.advance later).currentPage = 1 ∧
    (s.advance later).timers = [] := by
  obtain ⟨⟨id, htimers, _⟩, _, hvalue⟩ := h
  unfold SearchBox.advance
  simp [htimers, hlater, SearchBox.timerCallback, hvalue]

/-- C17: the search listener keeps at most one timer pending; each input event leaves
exactly one pending timer, due 300 ms after the event; and a burst of keystrokes, each
less than 300 ms after the one before, typed into a search box with no pending timer,
issues nothing before 300 ms have passed since the last keystroke and then exactly one
`loadProducts`, with `searchQuery` set to the last value and `currentPage` set to 1. -/
theorem search_debounce (events : List SearchEvent) (time : Nat) (value : String)
    (s : SearchBox) (first : Nat × String) (rest : List (Nat × String)) (early later : Nat)
    (hidle : s.timers = []) (hstart : s.now ≤ first.1)
    (hclose : CloseTogether (first :: rest))
    (hearly : early < ((first :: rest).getLast (List.cons_ne_nil _ _)).1 + 300)
    (hlater : ((first :: rest).getLast (List.cons_ne_nil _ _)).1 + 300 ≤ later) :
    (SearchBox.init.run events).timers.length ≤ 1 ∧
    ((SearchBox.init.run events).input time value).timers
        = [{ id := (SearchBox.init.run events).nextTimerId,
             due := max (SearchBox.init.run events).now time + 300 }] ∧
    ((s.type (first :: rest)).advance early).loads = s.loads ∧
    ((s.type (first :: rest)).advance later).loads
        = s.loads ++
          [{ time := ((first :: rest).getLast (List.cons_ne_nil _ _)).1 + 300,
             searchQuery := ((first :: rest).getLast (List.cons_ne_nil _ _)).2,
             currentPage := 1 }] ∧
    ((s.type (first :: rest)).advance later).searchQuery
        = ((first :: rest).getLast (List.cons_ne_nil _ _)).2 ∧
    ((s.type (first :: rest)).advance later).currentPage = 1 ∧
    ((s.type (first :: rest)).advance later).timers = [] := by
  have hreach : (SearchBox.init.run events).SingleTimer :=
    singleTimer_run SearchBox.init events (Or.inl rfl)
  have hfirst := armed_input s first.1 first.2 (Or.inl hidle)
    (by intro timer hmem; rw [hidle] at hmem; cases hmem) hstart
  have hburst := armed_type rest (s.input first.1 first.2) first hfirst.1 hclose
  have htype : s.type (first :: rest) = (s.input first.1 first.2).type rest := rfl
  rw [htype]
  obtain ⟨harmed, hloads⟩ := hburst
  have hloads' : ((s.input first.1 first.2).type rest).loads = s.loads :=
    hloads.trans hfirst.2
  obtain ⟨h1, h2, h3, h4⟩ := armed_advance _ _ later _ harmed hlater
  refine ⟨?_, ?_, ?_, ?_, h2, h3, h4⟩
  · rcases hreach with h | ⟨id, due, h, _⟩ <;> simp [h]
  · rw [input_of_singleTimer _ time value hreach]
  · obtain ⟨⟨id, htimers, _⟩, _, _⟩ := harmed
    rw [advance_of_not_due]
    · exact hloads'
    · intro timer hmem
      rw [htimers, List.mem_singleton] at hmem
      rw [hmem]
      exact hearly
  · rw [h1, hloads']

/-- Witness for C17: three keystrokes at 10, 100 and 399 ms typed into the fresh search
box; nothing is loaded by 698 ms and `abc` is loaded at 699 ms. -/
theorem search_debounce_witness :
    ((SearchBox.init.type [(10, "a"), (100, "ab"), (399, "abc")]).advance 698).loads = [] ∧
    ((SearchBox.init.type [(10, "a"), (100, "ab"), (399, "abc")]).advance 5000).loads
      = [{ time := 699, searchQuery := "abc", currentPage := 1 }] :=
  have h := search_debounce [] 0 "" SearchBox.init (10, "a") [(100, "ab"), (399, "abc")]
    698 5000 rfl (by decide) (by simp [CloseTogether]) (by decide) (by decide)
  ⟨h.2.2.1, h.2.2.2.1⟩

/-! ## Removing a line item -/

theorem length_filter_add_length_filter (id : Int) (cart : List LineItem) :
    (cart.filter (fun item => item.id != id)).length
      + (cart.filter (fun item => item.id == id)).length = cart.length := by
  induction cart with
  | nil => rfl
  | cons y ys ih =>
    by_cases hy : y.id = id
    · simp [List.filter_cons, hy]
      omega
    · simp [List.filter_cons, hy]
      omega

/-- C22: for every state and id, the cart after `ShoppingCart.removeFromCart` is the
sub-list of the line items whose id differs from the given one, in their order and
unchanged; no line item of it has that id, and its length is the old length less the
number of line items that had the id. -/
theorem removeFromCart_is_filter (s : ShoppingCart) (productId : Int) :
    (s.removeFromCart productId).cart = s.cart.filter (fun item => item.id != productId) ∧
    (s.removeFromCart productId).cart.Sublist s.cart ∧
    (∀ item, item ∈ (s.removeFromCart productId).cart ↔ item ∈ s.cart ∧ item.id ≠ productId) ∧
    (∀ item ∈ (s.removeFromCart productId).cart, item.id ≠ productId) ∧
    (s.removeFromCart productId).cart.length
        + (s.cart.filter (fun item => item.id == productId)).length = s.cart.length := by
  rw [removeFromCart_cart]
  refine ⟨rfl, List.filter_sublist s.cart, ?_, mem_filter_ne_id productId s.cart,
    length_filter_add_length_filter productId s.cart⟩
  intro item
  simp [List.mem_filter]

/-! ## The two implementations of the quantity update -/

theorem find?_setQuantity (id q : Int) (cart : List LineItem) :
    (setQuantity id q cart).find? (fun item => item.id == id)
      = (cart.find? (fun item => item.id == id)).map (fun item => item.withQuantity q) := by
  unfold setQuantity
  induction cart with
  | nil => rfl
  | cons y ys ih =>
    by_cases hy : y.id = id
    · simp [mapFirst, List.find?_cons, hy, LineItem.withQuantity]
    · simp [mapFirst, List.find?_cons, hy, ih]

theorem find?_of_unique (id : Int) (cart : List LineItem) (item : LineItem)
    (huniq : UniqueIds cart) (hmem : item ∈ cart) (hid : item.id = id) :
    cart.find? (fun i => i.id == id) = some item := by
  cases hfind : cart.find? (fun i => i.id == id) with
  | none => exact absurd hid ((find?_id_eq_none_iff id cart).mp hfind item hmem)
  | some x =>
    obtain ⟨hx, hxid⟩ := find?_id_some id cart x hfind
    have : x = item := List.inj_on_of_nodup_map huniq hx hmem (by rw [hxid, hid])
    rw [this]

/-- C27, as stated, fails on a cart with a repeated id: with the line items `(1, 2)` and
`(1, 5)`, take the second one, so `q = 5`, and `d = -3`. `CartManager.updateQuantity(1, -3)`
reads the first match, finds `2 - 3 ≤ 0` and removes every line item with id 1, which
leaves the empty cart; `ShoppingCart.updateQuantity(1, 5 + -3)` sets the first match to 2
and keeps both line items. -/
theorem cart_implementations_differ_on_repeated_id :
    ({ id := 1, title := "again", description := "", price := 10, image := "",
       quantity := 5 } : LineItem) ∈ duplicatePage.cart ∧
    duplicateShop.cart = duplicatePage.cart ∧
    UIManager.getCart (CartManager.updateQuantity duplicatePage 1 (-3)) = [] ∧
    (duplicateShop.updateQuantity 1 (5 + -3)).cart.map (fun item => (item.id, item.quantity))
      = [(1, 2), (1, 5)] ∧
    UIManager.getCart (CartManager.updateQuantity duplicatePage 1 (-3))
      ≠ (duplicateShop.updateQuantity 1 (5 + -3)).cart := by
  have hpage : UIManager.getCart (CartManager.updateQuantity duplicatePage 1 (-3)) = [] := by
    decide
  have hshop : (duplicateShop.updateQuantity 1 (5 + -3)).cart.map
      (fun item => (item.id, item.quantity)) = [(1, 2), (1, 5)] := by
    decide
  refine ⟨List.mem_cons_of_mem _ (List.mem_cons_self _ _), by
    simp [duplicateShop, duplicatePage, ShoppingCart.new, parseCart, Page.cart,
      UIManager.getCart], hpage, hshop, ?_⟩
  intro h
  rw [hpage] at h
  rw [← h] at hshop
  simp at hshop

/-- C27, amended: on a cart that holds a line item with the given id, where `q` is the
quantity of the line item that `find` returns for the id (of any line item with the id
when ids are unique), the stored cart after `CartManager.updateQuantity(id, d)` is the
cart, and the stored cart, after `ShoppingCart.updateQuantity(id, q + d)`; both keep a
line item with that id exactly when `q + d > 0`. -/
theorem cart_implementations_agree (w : Page) (s : ShoppingCart) (itemId d : Int)
    (item : LineItem) (hsame : s.cart = w.cart) (hmem : item ∈ w.cart)
    (hid : item.id = itemId)
    (hfirst : UniqueIds w.cart ∨ w.cart.find? (fun i => i.id == itemId) = some item) :
    UIManager.getCart (CartManager.updateQuantity w itemId d)
        = (s.updateQuantity itemId (item.quantity + d)).cart ∧
    UIManager.getCart (CartManager.updateQuantity w itemId d)
        = (s.updateQuantity itemId (item.quantity + d)).persistedCart ∧
    ((∃ i ∈ UIManager.getCart (CartManager.updateQuantity w itemId d), i.id = itemId)
        ↔ 0 < item.quantity + d) ∧
    ((∃ i ∈ (s.updateQuantity itemId (item.quantity + d)).cart, i.id = itemId)
        ↔ 0 < item.quantity + d) := by
  have hfind : w.cart.find? (fun i => i.id == itemId) = some item := by
    rcases hfirst with h | h
    · exact find?_of_unique itemId w.cart item h hmem hid
    · exact h
  have hui : w.uiManager = true :=
    uiManager_of_cart_ne_nil w (List.ne_nil_of_mem hmem)
  have hshop : (s.updateQuantity itemId (item.quantity + d)).cart
      = if item.quantity + d ≤ 0 then w.cart.filter (fun i => i.id != itemId)
        else setQuantity itemId (item.quantity + d) w.cart := by
    rw [updateQuantity_cart, hsame]
  have hpage : UIManager.getCart (CartManager.updateQuantity w itemId d)
      = if item.quantity + d ≤ 0 then w.cart.filter (fun i => i.id != itemId)
        else setQuantity itemId (item.quantity + d) w.cart := by
    rw [cartManager_updateQuantity_eq, hfind]
    dsimp only
    by_cases hq : item.quantity + d ≤ 0
    · rw [if_pos hq, if_pos hq]
      unfold CartManager.removeItem
      dsimp only
      rw [if_pos hui]
      rfl
    · rw [if_neg hq, if_neg hq, if_pos hui]
      rfl
  have hstored : (s.updateQuantity itemId (item.quantity + d)).persistedCart
      = (s.updateQuantity itemId (item.quantity + d)).cart := by
    unfold ShoppingCart.persistedCart
    rw [updateQuantity_storedCart, updateQuantity_cart, hsame, hfind]
    split <;> rfl
  have hkeeps : (∃ i ∈ (if item.quantity + d ≤ 0 then w.cart.filter (fun i => i.id != itemId)
        else setQuantity itemId (item.quantity + d) w.cart), i.id = itemId)
      ↔ 0 < item.quantity + d := by
    by_cases hq : item.quantity + d ≤ 0
    · rw [if_pos hq]
      constructor
      · rintro ⟨i, hi, hiid⟩
        exact absurd hiid (mem_filter_ne_id itemId w.cart i hi)
      · intro hpos
        omega
    · rw [if_neg hq]
      constructor
      · intro _
        omega
      · intro _
        have hf := find?_setQuantity itemId (item.quantity + d) w.cart
        rw [hfind] at hf
        obtain ⟨hm, hi⟩ := find?_id_some itemId _ _ hf
        exact ⟨_, hm, hi⟩
  refine ⟨by rw [hpage, hshop], by rw [hstored, hpage, hshop], ?_, ?_⟩
  · rw [hpage]
    exact hkeeps
  · rw [hshop]
    exact hkeeps

/-- Witness for C27: product 1 of the scenario cart, whose quantity is 2, changed by -2
on the cart page and set to 0 in the sidebar cart. -/
theorem cart_implementations_agree_witness :
    UIManager.getCart (CartManager.updateQuantity scenarioPage 1 (-2))
      = (scenarioShop.updateQuantity 1
          (({ id := 1, title := "first", description := "", price := 10, image := "",
              quantity := 2 } : LineItem).quantity + -2)).cart :=
  (cart_implementations_agree scenarioPage scenarioShop 1 (-2)
    { id := 1, title := "first", description := "", price := 10, image := "", quantity := 2 }
    scenarioShop_cart (List.mem_cons_self _ _) rfl (Or.inl (by decide))).1

/-! ## The badge and the checkout button -/

theorem length_le_sum_quantities (cart : List LineItem) (h : QuantitiesPositive cart) :
    (cart.length : Int) ≤ (cart.map (fun item => item.quantity)).sum := by
  induction cart with
  | nil => simp
  | cons y ys ih =>
    have hy : 1 ≤ y.quantity := h y (List.mem_cons_self _ _)
    have hys := ih (fun item hm => h item (List.mem_cons_of_mem _ hm))
    simp only [List.length_cons, List.map_cons, List.sum_cons]
    push_cast
    omega

theorem totalItems_eq_sum (cart : List LineItem) :
    cart.foldl (fun sum item => sum + item.quantity) 0
      = (cart.map (fun item => item.quantity)).sum := by
  rw [foldl_add_eq_sum (fun item => item.quantity) cart 0, zero_add]

theorem sum_quantities_pos_iff (cart : List LineItem) (h : QuantitiesPositive cart) :
    0 < (cart.map (fun item => item.quantity)).sum ↔ cart ≠ [] := by
  constructor
  · intro hpos hnil
    rw [hnil] at hpos
    simp at hpos
  · intro hne
    have hlen := length_le_sum_quantities cart h
    have : 0 < cart.length := List.length_pos.mpr hne
    omega

/-- C28: when every quantity is at least one, the item count is positive exactly when
the cart is not empty, so the badge is visible exactly when the checkout button is
enabled, in the sidebar (`ShoppingCart`) and on the cart page (`UIManager` and
`CartManager`); and the item count is at least the number of line items. -/
theorem badge_iff_checkout_enabled (s : ShoppingCart) (w : Page)
    (hs : QuantitiesPositive s.cart) (hw : QuantitiesPositive (UIManager.getCart w)) :
    (0 < s.updateCartCount.1 ↔ s.cart ≠ []) ∧
    (s.updateCartCount.2 = true ↔ s.updateCartTotals.checkoutDisabled = false) ∧
    ((s.cart.length : Int) ≤ s.updateCartCount.1) ∧
    (0 < (UIManager.updateCartCount w).1 ↔ UIManager.getCart w ≠ []) ∧
    ((UIManager.updateCartCount w).2 = true
      ↔ (CartManager.updateSummary w (UIManager.getCart w)).checkoutDisabled = false) ∧
    (CartManager.updateSummary w (UIManager.getCart w)).itemCount
      = (UIManager.updateCartCount w).1 ∧
    (((UIManager.getCart w).length : Int)
      ≤ (CartManager.updateSummary w (UIManager.getCart w)).itemCount) := by
  have hscount : s.updateCartCount.1 = (s.cart.map (fun item => item.quantity)).sum :=
    totalItems_eq_sum s.cart
  have hwcount : (UIManager.updateCartCount w).1
      = ((UIManager.getCart w).map (fun item => item.quantity)).sum :=
    totalItems_eq_sum (UIManager.getCart w)
  have hsummary : (CartManager.updateSummary w (UIManager.getCart w)).itemCount
      = ((UIManager.getCart w).map (fun item => item.quantity)).sum :=
    totalItems_eq_sum (UIManager.getCart w)
  have hspos := sum_quantities_pos_iff s.cart hs
  have hwpos := sum_quantities_pos_iff (UIManager.getCart w) hw
  refine ⟨?_, ?_, ?_, ?_, ?_, ?_, ?_⟩
  · rw [hscount]
    exact hspos
  · have hvis : s.updateCartCount.2 = decide (s.updateCartCount.1 > 0) := rfl
    have hdis : s.updateCartTotals.checkoutDisabled = decide (s.cart.length = 0) := rfl
    rw [hvis, hdis, hscount, decide_eq_true_iff, decide_eq_false_iff_not, gt_iff_lt, hspos,
      List.length_eq_zero]
  · rw [hscount]
    exact length_le_sum_quantities s.cart hs
  · rw [hwcount]
    exact hwpos
  · have hvis : (UIManager.updateCartCount w).2
        = decide ((UIManager.updateCartCount w).1 > 0) := rfl
    have hdis : (CartManager.updateSummary w (UIManager.getCart w)).checkoutDisabled
        = decide ((UIManager.getCart w).length = 0) := rfl
    rw [hvis, hdis, hwcount, decide_eq_true_iff, decide_eq_false_iff_not, gt_iff_lt, hwpos,
      List.length_eq_zero]
  · rw [hsummary, hwcount]
  · rw [hsummary]
    exact length_le_sum_quantities (UIManager.getCart w) hw

/-- Witness for C28: the scenario cart in the sidebar and on the cart page. -/
theorem badge_iff_checkout_enabled_witness :
    (scenarioShop.updateCartCount.2 = true
      ↔ scenarioShop.updateCartTotals.checkoutDisabled = false) ∧
    ((UIManager.updateCartCount scenarioPage).2 = true
      ↔ (CartManager.updateSummary scenarioPage
          (UIManager.getCart scenarioPage)).checkoutDisabled = false) :=
  have h := badge_iff_checkout_enabled scenarioShop scenarioPage (by decide) (by decide)
  ⟨h.2.1, h.2.2.2.2.1⟩

/-! ## Logout -/

/-- C24: whatever the outcome of the logout request, after `APIService.logout` the token is
`null`, `auth_token` and `user_data` are removed and `isAuthenticated()` is false; the one
request issued is `POST /auth/logout`, and `AuthManager.handleLogout` adds exactly that
request to the requests of the page and ends with the session cleared. -/
theorem logout_ends_session (api : APIService) (b : Browser) (outcome : FetchOutcome Json) :
    (api.logout outcome).api.token = none ∧
    (api.logout outcome).api.auth_token = none ∧
    (api.logout outcome).api.user_data = none ∧
    (api.logout outcome).api.isAuthenticated = false ∧
    (api.logout outcome).fetch
      = api.fetchCall API_CONFIG.ENDPOINTS.LOGOUT
          { method := some "POST", body := none, headers := none } ∧
    (AuthManager.handleLogout b outcome).api.token = none ∧
    (AuthManager.handleLogout b outcome).api.auth_token = none ∧
    (AuthManager.handleLogout b outcome).api.user_data = none ∧
    (AuthManager.handleLogout b outcome).api.isAuthenticated = false ∧
    (AuthManager.handleLogout b outcome).fetches
      = b.fetches ++ [b.api.fetchCall API_CONFIG.ENDPOINTS.LOGOUT
          { method := some "POST", body := none, headers := none }] := by
  have hfetch : ∀ (a : APIService), (a.logout outcome).fetch
      = a.fetchCall API_CONFIG.ENDPOINTS.LOGOUT
          { method := some "POST", body := none, headers := none } := by
    intro a
    unfold APIService.logout
    exact request_fetch a _ _ outcome
  have hpage : (AuthManager.handleLogout b outcome).fetches
        = b.fetches ++ [(b.api.logout outcome).fetch] ∧
      ((AuthManager.handleLogout b outcome).api = (b.api.logout outcome).api ∨
       (AuthManager.handleLogout b outcome).api = (b.api.logout outcome).api.clearAuth) := by
    unfold AuthManager.handleLogout
    dsimp only
    split
    · exact ⟨rfl, Or.inl rfl⟩
    · exact ⟨rfl, Or.inr rfl⟩
  have hcleared : (AuthManager.handleLogout b outcome).api.token = none ∧
      (AuthManager.handleLogout b outcome).api.auth_token = none ∧
      (AuthManager.handleLogout b outcome).api.user_data = none := by
    rcases hpage.2 with h | h <;> rw [h] <;> exact ⟨rfl, rfl, rfl⟩
  refine ⟨rfl, rfl, rfl, rfl, hfetch api, hcleared.1, hcleared.2.1, hcleared.2.2,
    isAuthenticated_of_token_none _ hcleared.1, ?_⟩
  rw [hpage.1, hfetch b.api]

/-! ## Which errors clear the session -/

/-- An error that is not an abort and whose message does not contain `401` is returned as
it is, and the service is left as it is. -/
theorem handleError_passthrough (api : APIService) (error : JsError)
    (hname : error.name ≠ "AbortError") (hmsg : includes error.message "401" = false) :
    api.handleError error = (api, error) := by
  unfold APIService.handleError
  rw [if_neg hname, if_neg (by simp [hmsg])]

/-- A list that occurs inside `a ++ c :: b` and does not contain `c` occurs inside `a` or
inside `b`. -/
theorem infix_of_infix_append_cons {α : Type} (l a b : List α) (c : α) (hc : c ∉ l)
    (h : l <:+: a ++ c :: b) : l <:+: a ∨ l <:+: b := by
  obtain ⟨s, t, hst⟩ := h
  rw [List.append_assoc] at hst
  rcases List.append_eq_append_iff.mp hst with ⟨a', ha, hlt⟩ | ⟨c', hs, hcb⟩
  · rcases List.append_eq_append_iff.mp hlt with ⟨x, hx, _⟩ | ⟨y, hy, hcy⟩
    · left
      exact ⟨s, x, by rw [ha, hx, List.append_assoc]⟩
    · cases y with
      | nil =>
        left
        rw [List.append_nil] at hy
        exact ⟨s, [], by rw [List.append_nil, ha, hy]⟩
      | cons c₀ y' =>
        have hcc : c = c₀ := by
          have := congrArg List.head? hcy
          simpa using this
        exact absurd (by rw [hy, hcc]; simp) hc
  · cases c' with
    | nil =>
      rw [List.nil_append] at hcb
      cases l with
      | nil => exact Or.inl List.nil_infix
      | cons l₀ l' =>
        have hcc : c = l₀ := by
          have := congrArg List.head? hcb
          simpa using this
        exact absurd (by rw [hcc]; simp) hc
    | cons c₀ c'' =>
      right
      have hb : b = c'' ++ (l ++ t) := by
        have := congrArg List.tail hcb
        simpa using this
      exact ⟨c'', t, by rw [hb, List.append_assoc]⟩

/-- The message `HTTP <status>: <statusText>` contains `401` only if the status digits or
the status text do. -/
theorem includes_http_message (status : Nat) (statusText : String)
    (hstatus : includes (toString status) "401" = false)
    (htext : includes statusText "401" = false) :
    includes ("HTTP " ++ toString status ++ ": " ++ statusText) "401" = false := by
  unfold includes at *
  rw [decide_eq_false_iff_not] at *
  intro h
  have hlist : ("HTTP " ++ toString status ++ ": " ++ statusText).toList
      = ['H', 'T', 'T', 'P'] ++ ' ' :: ((toString status).toList
          ++ ':' :: ([] ++ ' ' :: statusText.toList)) := by
    simp [String.toList, String.data_append]
  rw [hlist] at h
  have h401 : "401".toList = ['4', '0', '1'] := rfl
  rw [h401] at h hstatus htext
  rcases infix_of_infix_append_cons _ _ _ ' ' (by decide) h with h1 | h1
  · exact absurd h1 (by decide)
  · rcases infix_of_infix_append_cons _ _ _ ':' (by decide) h1 with h2 | h2
    · exact hstatus h2
    · rcases infix_of_infix_append_cons _ _ _ ' ' (by decide) h2 with h3 | h3
      · exact absurd h3 (by decide)
      · exact htext h3

set_option maxRecDepth 100000 in
/-- The digits of a three-digit status other than 401 do not contain `401`. -/
theorem status_digits_without_401 :
    ∀ status : Nat, status < 1000 → status ≠ 401 → 100 ≤ status →
      includes (toString status) "401" = false := by
  unfold includes
  decide

/-- What does hold of C23: a response with a three-digit status other than 401 and a status
text that does not contain `401`, and a rejection that is not an abort and whose message
does not contain `401`, are thrown as they are and leave the service as it is. -/
theorem request_passthrough (api : APIService) (endpoint : String) (options : RequestOptions)
    (status : Nat) (statusText : String) (error : JsError)
    (hstatus : 100 ≤ status ∧ status < 1000 ∧ status ≠ 401)
    (htext : includes statusText "401" = false)
    (hname : error.name ≠ "AbortError") (hmsg : includes error.message "401" = false) :
    api.request endpoint options (FetchOutcome.notOk status statusText : FetchOutcome Json)
      = { api := api, fetch := api.fetchCall endpoint options,
          result := Except.error
            (JsError.new ("HTTP " ++ toString status ++ ": " ++ statusText)) } ∧
    api.request endpoint options (FetchOutcome.rejected error : FetchOutcome Json)
      = { api := api, fetch := api.fetchCall endpoint options,
          result := Except.error error } := by
  have h1 := handleError_passthrough api
    (JsError.new ("HTTP " ++ toString status ++ ": " ++ statusText))
    (by simp [JsError.new])
    (includes_http_message status statusText
      (status_digits_without_401 status hstatus.2.1 hstatus.2.2 hstatus.1) htext)
  have h2 := handleError_passthrough api error hname hmsg
  constructor
  · simp only [APIService.request, h1]
  · simp only [APIService.request, h2]

/-- C23 on a failing input: the scenario service holds the token `abc`; a request that ends
with status 500 and the status text `upstream replied 401` makes `handleError` clear the
token and the stored credential and throw `Authentication required` in place of the
original error. -/
theorem server_error_clears_session :
    scenarioService.token = some "abc" ∧
    scenarioService.auth_token = some "abc" ∧
    (scenarioService.handleError (JsError.new "HTTP 500: upstream replied 401")).1.token
      = none ∧
    (scenarioService.request "/cart" RequestOptions.empty
      (FetchOutcome.notOk 500 "upstream replied 401" : FetchOutcome Json)).api.token = none ∧
    (scenarioService.request "/cart" RequestOptions.empty
      (FetchOutcome.notOk 500 "upstream replied 401" : FetchOutcome Json)).api.auth_token
      = none ∧
    (scenarioService.request "/cart" RequestOptions.empty
      (FetchOutcome.notOk 500 "upstream replied 401" : FetchOutcome Json)).api.isAuthenticated
      = false ∧
    (scenarioService.request "/cart" RequestOptions.empty
      (FetchOutcome.notOk 500 "upstream replied 401" : FetchOutcome Json)).result
      = Except.error (JsError.new "Authentication required") := by
  have hmsg : "HTTP " ++ toString (500 : Nat) ++ ": " ++ "upstream replied 401"
      = "HTTP 500: upstream replied 401" := by decide
  have hhandle := handleError_unauthorized scenarioService
    (JsError.new "HTTP 500: upstream replied 401") (by decide) (by decide)
  have hreq : scenarioService.request "/cart" RequestOptions.empty
      (FetchOutcome.notOk 500 "upstream replied 401" : FetchOutcome Json)
      = { api := scenarioService.clearAuth
          fetch := scenarioService.fetchCall "/cart" RequestOptions.empty
          result := Except.error (JsError.new "Authentication required") } := by
    simp only [APIService.request, hmsg, hhandle]
  rw [hreq, hhandle]
  exact ⟨rfl, rfl, rfl, rfl, rfl, rfl, rfl⟩

/-! ## Login, register and the stored profile -/

/-- What does hold of C25: a login whose response carries a non-empty access token sets the
token in memory and in storage and stores the user; a response without a token, or a
failure that is an abort or whose message does not contain `401`, leaves the service as it
is; and a successful `register` leaves the service as it is. -/
theorem login_effect (api : APIService) (credentials userData : Json)
    (response : LoginResponse) (body : Json) (token : String) (error : JsError) :
    (response.access_token = some token → token ≠ "" →
      (api.login credentials (FetchOutcome.ok response)).api
        = api.setAuth token response.user ∧
      (api.login credentials (FetchOutcome.ok response)).api.token = some token ∧
      (api.login credentials (FetchOutcome.ok response)).api.auth_token = some token ∧
      (api.login credentials (FetchOutcome.ok response)).api.isAuthenticated = true) ∧
    (response.access_token = none ∨ response.access_token = some "" →
      (api.login credentials (FetchOutcome.ok response)).api = api) ∧
    (error.name = "AbortError" ∨ includes error.message "401" = false →
      (api.login credentials (FetchOutcome.rejected error)).api = api) ∧
    (api.register userData (FetchOutcome.ok body)).api = api := by
  refine ⟨?_, ?_, ?_, rfl⟩
  · intro htok hne
    have hapi : (api.login credentials (FetchOutcome.ok response)).api
        = api.setAuth token response.user := by
      simp only [APIService.login, APIService.request, htok, hne, ne_eq, not_false_eq_true,
        if_true]
    rw [hapi]
    refine ⟨rfl, rfl, rfl, ?_⟩
    simp [APIService.isAuthenticated, APIService.setAuth, hne]
  · intro h
    rcases h with h | h
    · simp only [APIService.login, APIService.request, h]
    · simp only [APIService.login, APIService.request, h, ne_eq, not_true_eq_false,
        if_false]
  · intro h
    have hhandle : (api.handleError error).1 = api := by
      rcases h with h | h
      · unfold APIService.handleError
        rw [if_pos h]
      · by_cases hname : error.name = "AbortError"
        · unfold APIService.handleError
          rw [if_pos hname]
        · rw [handleError_passthrough api error hname h]
    simp only [APIService.login, APIService.request]
    exact hhandle

/-- C25 on a failing input: the scenario service holds the token `abc`; a login whose
request ends with status 500 and the status text `upstream replied 401`, an error other
than 401, leaves the service without token and without stored credential. -/
theorem login_server_error_clears_session :
    scenarioService.token = some "abc" ∧
    scenarioService.auth_token = some "abc" ∧
    (scenarioService.login Json.null
      (FetchOutcome.notOk 500 "upstream replied 401")).api.token = none ∧
    (scenarioService.login Json.null
      (FetchOutcome.notOk 500 "upstream replied 401")).api.auth_token = none ∧
    (scenarioService.login Json.null
      (FetchOutcome.notOk 500 "upstream replied 401")).api.isAuthenticated = false := by
  have hmsg : "HTTP " ++ toString (500 : Nat) ++ ": " ++ "upstream replied 401"
      = "HTTP 500: upstream replied 401" := by decide
  have hhandle := handleError_unauthorized scenarioService
    (JsError.new "HTTP 500: upstream replied 401") (by decide) (by decide)
  have hlogin : (scenarioService.login Json.null
      (FetchOutcome.notOk 500 "upstream replied 401")).api = scenarioService.clearAuth := by
    simp only [APIService.login, APIService.request, hmsg, hhandle]
  rw [hlogin]
  exact ⟨rfl, rfl, rfl, rfl, rfl⟩

/-- What does hold of C29: after a login whose response carries a non-empty access token and
a user, `getUser()` returns that user; after `clearAuth()` it returns `null`. -/
theorem getUser_after_login (api : APIService) (credentials : Json) (response : LoginResponse)
    (token : String) (user : Json) (htok : response.access_token = some token)
    (hne : token ≠ "") (huser : response.user = some user) :
    (api.login credentials (FetchOutcome.ok response)).api.getUser = Except.ok user ∧
    api.clearAuth.getUser = Except.ok Json.null := by
  constructor
  · have hapi : (api.login credentials (FetchOutcome.ok response)).api
        = api.setAuth token response.user := by
      simp only [APIService.login, APIService.request, htok, hne, ne_eq, not_false_eq_true,
        if_true]
    rw [hapi, huser]
    rfl
  · rfl

/-- C29 on a failing input: a login on a fresh service whose response is
`{ access_token: 'abc' }`, without a `user` field, leaves the text `undefined` under
`user_data`, and `getUser()` then throws a `SyntaxError` where the claim has it return
`null`. -/
theorem getUser_throws_without_user :
    ((APIService.new none none).login Json.null
      (FetchOutcome.ok { access_token := some "abc", user := none })).api.isAuthenticated
      = true ∧
    (match ((APIService.new none none).login Json.null
        (FetchOutcome.ok { access_token := some "abc", user := none })).api.user_data with
      | some StoredProfile.undefinedText => True
      | _ => False) ∧
    ((APIService.new none none).login Json.null
      (FetchOutcome.ok { access_token := some "abc", user := none })).api.getUser
      = Except.error undefinedIsNotJson ∧
    ((APIService.new none none).login Json.null
      (FetchOutcome.ok { access_token := some "abc", user := none })).api.getUser
      ≠ Except.ok Json.null := by
  have hapi : ((APIService.new none none).login Json.null
      (FetchOutcome.ok { access_token := some "abc", user := none })).api
      = (APIService.new none none).setAuth "abc" none := by
    simp [APIService.login, APIService.request]
  rw [hapi]
  refine ⟨by decide, trivial, rfl, ?_⟩
  intro h
  have h' : (Except.error undefinedIsNotJson : Except JsError Json) = Except.ok Json.null := h
  cases h'

/-! ## Clicks on the cart sidebar -/

theorem foundQuantity_updateQuantity (s : ShoppingCart) (id q : Int) (hq : 0 < q) :
    foundQuantity id (s.updateQuantity id q).cart
      = (foundQuantity id s.cart).map (fun _ => q) := by
  unfold foundQuantity
  rw [updateQuantity_cart, if_neg (by omega), find?_setQuantity]
  cases s.cart.find? (fun item => item.id == id) <;> rfl

/-- A click on the increase control of an item raises its quantity once for every listener
that runs. -/
theorem dispatchClick_increase (id : Int) (n : Nat) :
    ∀ (s : ShoppingCart) (errors : List JsError) (q : Int),
      foundQuantity id s.cart = some q → 0 ≤ q →
      foundQuantity id
          (ShoppingCart.dispatchClick CartControl.increase id n (s, errors)).1.cart
        = some (q + n) ∧
      (ShoppingCart.dispatchClick CartControl.increase id n (s, errors)).2 = errors := by
  induction n with
  | zero =>
    intro s errors q hfound _
    simp [ShoppingCart.dispatchClick, hfound]
  | succ n ih =>
    intro s errors q hfound hq
    unfold foundQuantity at hfound
    cases hfind : s.cart.find? (fun item => item.id == id) with
    | none => simp [hfind] at hfound
    | some item =>
      have hitem : item.quantity = q := by simpa [hfind] using hfound
      have hnext : foundQuantity id (s.updateQuantity id (item.quantity + 1)).cart
          = some (q + 1) := by
        rw [foundQuantity_updateQuantity s id (item.quantity + 1) (by omega)]
        unfold foundQuantity
        rw [hfind, hitem]
        rfl
      obtain ⟨h1, h2⟩ := ih (s.updateQuantity id (item.quantity + 1)) errors (q + 1) hnext
        (by omega)
      have hstep : ShoppingCart.dispatchClick CartControl.increase id (n + 1) (s, errors)
          = ShoppingCart.dispatchClick CartControl.increase id n
              (s.updateQuantity id (item.quantity + 1), errors) := by
        simp only [ShoppingCart.dispatchClick, ShoppingCart.cartItemsListener, hfind]
      rw [hstep]
      refine ⟨?_, h2⟩
      rw [h1]
      push_cast
      congr 1
      ring

/-- A click on the increase control raises the quantity by the number of bound listeners,
which is 1 only right after the first render of a non-empty cart. -/
theorem click_increase_quantity (s : ShoppingCart) (id q : Int)
    (hfound : foundQuantity id s.cart = some q) (hq : 0 ≤ q) :
    foundQuantity id (s.click CartControl.increase id).1.cart
      = some (q + s.cartItemsListeners) ∧
    (s.click CartControl.increase id).2 = [] :=
  dispatchClick_increase id s.cartItemsListeners s [] q hfound hq

/-- With exactly one listener bound, a click on a rendered decrease control (quantity above
1) lowers the quantity by one and raises no error. -/
theorem click_decrease_single_listener (s : ShoppingCart) (id q : Int)
    (hone : s.cartItemsListeners = 1) (hfound : foundQuantity id s.cart = some q)
    (hq : 1 < q) :
    foundQuantity id (s.click CartControl.decrease id).1.cart = some (q - 1) ∧
    (s.click CartControl.decrease id).2 = [] := by
  unfold foundQuantity at hfound
  cases hfind : s.cart.find? (fun item => item.id == id) with
  | none => simp [hfind] at hfound
  | some item =>
    have hitem : item.quantity = q := by simpa [hfind] using hfound
    have hclick : s.click CartControl.decrease id
        = (s.updateQuantity id (item.quantity - 1), []) := by
      simp only [ShoppingCart.click, hone, ShoppingCart.dispatchClick,
        ShoppingCart.cartItemsListener, hfind]
    rw [hclick]
    refine ⟨?_, rfl⟩
    rw [foundQuantity_updateQuantity s id (item.quantity - 1) (by omega)]
    unfold foundQuantity
    rw [hfind, hitem]
    rfl

/-- C26 on a failing input: after `addToCart(1)` twice on a fresh page two click listeners
are bound and product 1 has quantity 2; one click on its increase control leaves quantity
4, and one click on its decrease control removes the item, where the claim has 3 and 1. -/
theorem click_changes_by_listener_count :
    twoAdds.cartItemsListeners = 2 ∧
    twoAdds.cart.map (fun item => (item.id, item.quantity)) = [(1, 2)] ∧
    twoAdds.rendered CartControl.increase 1 = true ∧
    twoAdds.rendered CartControl.decrease 1 = true ∧
    ((ShoppingCart.new none).sidebarRun
        [SidebarEvent.add 1, SidebarEvent.add 1,
         SidebarEvent.click CartControl.increase 1]).1.cart.map
        (fun item => (item.id, item.quantity)) = [(1, 4)] ∧
    ((ShoppingCart.new none).sidebarRun
        [SidebarEvent.add 1, SidebarEvent.add 1,
         SidebarEvent.click CartControl.decrease 1]).1.cart = [] := by
  refine ⟨by decide, by decide, by decide, by decide, by decide, by decide⟩

/-- C21 on a failing input: after `addToCart(1)`, `addToCart(2)`, `addToCart(1)` on a fresh
page three click listeners are bound and product 1 has quantity 2, so its decrease button
is enabled; one click on it runs the listener three times: the first leaves quantity 1,
the second removes the item, and the third reads `quantity` of the missing item and
throws a `TypeError`. -/
theorem click_decrease_throws :
    threeAdds.cartItemsListeners = 3 ∧
    threeAdds.cart.map (fun item => (item.id, item.quantity)) = [(1, 2), (2, 1)] ∧
    threeAdds.rendered CartControl.decrease 1 = true ∧
    ((ShoppingCart.new none).sidebarRun
        [SidebarEvent.add 1, SidebarEvent.add 2, SidebarEvent.add 1]).2 = [] ∧
    ((ShoppingCart.new none).sidebarRun
        [SidebarEvent.add 1, SidebarEvent.add 2, SidebarEvent.add 1,
         SidebarEvent.click CartControl.decrease 1]).2 = [quantityOfUndefined] ∧
    ((ShoppingCart.new none).sidebarRun
        [SidebarEvent.add 1, SidebarEvent.add 2, SidebarEvent.add 1,
         SidebarEvent.click CartControl.decrease 1]).1.cart.map
        (fun item => (item.id, item.quantity)) = [(2, 1)] := by
  refine ⟨by decide, by decide, by decide, by decide, by decide, by decide⟩

end Storefront
